import Mathlib

/-! homebridge-meross: the garage door device.

A shallow embedding of `lib/device/garage.js` (class `deviceGarage`).

The mutable fields of the JavaScript object (`this.cacheTarget`,
`this.cacheCurrent`, `this.updateKey`, `this.ignoreIncoming`,
`this.updateInProgress`), the two HomeKit characteristics the class writes
(`TargetDoorState`, `CurrentDoorState`), the callbacks handed to `setTimeout`
and the lines sent to the logger are the fields of `Device`.  Everything the
class awaits from a collaborator (the mqtt publish, the local request, the
poll response, `Math.random`) is an explicit argument of the function that
consumes it.

Each queued unit of work is run as one step: the embedding does not interleave
other events with the `await` inside a unit.

The last part of the definitions embeds the cloud client
`lib/connection/cloud/http.js` (class `connectionHTTP`): `login`, `getDevices`
and `getSubDevices` consume a list that says how the successive calls of
`axios` settle, and a bound on nested calls stands for the unbounded retry.
-/

namespace Meross

/-! ## JavaScript values -/

/-- The JavaScript values that reach the door-state fields and the sensor flag. -/
inductive JsVal where
  | undefined
  | bool (b : Bool)
  | num (n : Nat)
  deriving DecidableEq, Repr

/-- JavaScript truthiness, as used by `if (isOpen)`. -/
def JsVal.truthy : JsVal → Bool
  | .undefined => false
  | .bool b => b
  | .num n => decide (n ≠ 0)

/-- The table `this.states` (lines 30-36); `none` is a missing key. -/
def states : JsVal → Option String
  | .num 0 => some "open"
  | .num 1 => some "closed"
  | .num 2 => some "opening"
  | .num 3 => some "closing"
  | .num 4 => some "stopped"
  | _ => none

/-! ## Data received from the collaborators -/

/-- An element of `garageDoor` or of `state`; `open_` is its `open` property,
`none` when the object has no such property. -/
structure DoorEntry where
  open_ : Option JsVal
  deriving DecidableEq, Repr

/-- The object `payload.all.digest`. -/
structure Digest where
  garageDoor : Option (List DoorEntry)
  deriving DecidableEq, Repr

/-- The object `payload.all`. -/
structure AllData where
  digest : Option Digest
  deriving DecidableEq, Repr

/-- The object `payload` of a response or of a pushed message. -/
structure Payload where
  all : Option AllData
  state : Option (List DoorEntry)
  error : Option String
  deriving DecidableEq, Repr

/-- The object `res.data.header`. -/
structure Header where
  method : String
  deriving DecidableEq, Repr

/-- The object `res.data`. -/
structure ResData where
  header : Option Header
  payload : Option Payload
  deriving DecidableEq, Repr

/-- The value `res` a request resolves with. -/
structure Response where
  data : Option ResData
  deriving DecidableEq, Repr

/-- The argument `params` of `externalUpdate`. -/
structure Params where
  payload : Option Payload
  deriving DecidableEq, Repr

/-- What the transport does when a command is sent: whether the promise of
`mqtt.controlGarageDoor` resolves, and what `platform.sendLocalDeviceUpdate`
resolves with (`none`: it rejects). -/
structure World where
  controlGarageDoor : Bool
  sendLocalDeviceUpdate : Option Response
  deriving DecidableEq, Repr

/-! ## The device object -/

/-- The value of `accessory.context.connection`. -/
inductive Connection where
  | cloud
  | local_
  | other
  deriving DecidableEq, Repr

/-- The local variable `action` of `internalTargetUpdate`. -/
inductive Action where
  | undefined
  | close
  | open_
  deriving DecidableEq, Repr

/-- The three callbacks the class hands to `setTimeout`. -/
inductive Callback where
  | ignoreReset
  | complete (updateKey : String)
  | revert
  deriving DecidableEq, Repr

/-- A pending `setTimeout`: its delay in milliseconds and its callback. -/
structure Timer where
  delay : Nat
  callback : Callback
  deriving DecidableEq, Repr

/-- The lines written through `this.log` and `this.log.warn`. -/
inductive LogEntry where
  | currentTarget (label : Option String)
  | currentState (label : Option String)
  | targetState (label : Option String)
  | incomingPoll
  | incomingMqtt
  | sendingUpdateFailed
  | failedToRefresh
  deriving DecidableEq, Repr

/-- The state of a `deviceGarage` object together with the two characteristics
of its service, the pending timers and the log. -/
structure Device where
  connection : Connection
  enableLogging : Bool
  enableDebugLogging : Bool
  operationTime : Nat
  cacheTarget : JsVal
  cacheCurrent : JsVal
  targetDoorState : JsVal
  currentDoorState : JsVal
  targetPosition : Option Int
  updateKey : Option String
  ignoreIncoming : Bool
  updateInProgress : Bool
  timers : List Timer
  log : List LogEntry
  deriving DecidableEq, Repr

/-- The object right after the constructor has read the two characteristics
(lines 47-54), before its first `requestUpdate`. -/
def Device.init (connection : Connection) (enableLogging enableDebugLogging : Bool)
    (operationTime : Nat) (target current : JsVal) : Device :=
  { connection := connection
    enableLogging := enableLogging
    enableDebugLogging := enableDebugLogging
    operationTime := operationTime
    cacheTarget := target
    cacheCurrent := current
    targetDoorState := target
    currentDoorState := current
    targetPosition := none
    updateKey := none
    ignoreIncoming := false
    updateInProgress := false
    timers := []
    log := [] }

/-- Append one line to the log. -/
def Device.logLine (s : Device) (e : LogEntry) : Device :=
  { s with log := s.log ++ [e] }

/-- Register a callback with `setTimeout`. -/
def Device.setTimeout (s : Device) (cb : Callback) (delay : Nat) : Device :=
  { s with timers := s.timers ++ [⟨delay, cb⟩] }

/-! ## `internalTargetUpdate` -/

/-- The locals `action`, `newTarget`, `newCurrent` of `internalTargetUpdate`. -/
structure Locals where
  action : Action
  newTarget : JsVal
  newCurrent : JsVal
  deriving DecidableEq, Repr

/-- Lines 93-163: the branch on `value` and `this.cacheCurrent`, which fixes the
locals and marks the characteristics. -/
def transition (s : Device) (value : JsVal) : Locals × Device :=
  if value = .num 1 then
    if s.cacheCurrent = .num 0 then
      (⟨.close, value, .num 3⟩, { s with currentDoorState := .num 3 })
    else if s.cacheCurrent = .num 1 then
      (⟨.undefined, value, .num 1⟩, { s with currentDoorState := .num 1 })
    else if s.cacheCurrent = .num 2 then
      (⟨.close, .num 1, .num 3⟩,
        { s with targetDoorState := .num 1, currentDoorState := .num 3 })
    else if s.cacheCurrent = .num 3 then
      (⟨.undefined, value, .num 3⟩, { s with currentDoorState := .num 3 })
    else
      (⟨.undefined, value, .undefined⟩, s)
  else if value = .num 0 then
    if s.cacheCurrent = .num 0 then
      (⟨.undefined, value, .num 0⟩, { s with currentDoorState := .num 0 })
    else if s.cacheCurrent = .num 1 then
      (⟨.open_, value, .num 2⟩, { s with currentDoorState := .num 2 })
    else if s.cacheCurrent = .num 2 then
      (⟨.undefined, value, .num 2⟩, { s with currentDoorState := .num 2 })
    else if s.cacheCurrent = .num 3 then
      (⟨.open_, .num 0, .num 2⟩,
        { s with targetDoorState := .num 0, currentDoorState := .num 2 })
    else
      (⟨.undefined, value, .undefined⟩, s)
  else
    (⟨.undefined, value, .undefined⟩, s)

/-- Line 198: the test that makes the local branch throw. When it holds the
`throw` statement is reached (and evaluating its message may itself throw);
either way control passes to the `catch` of `internalTargetUpdate`. -/
def localResponseRejected (res : Response) : Bool :=
  match res.data with
  | none => true
  | some d =>
    match d.header with
    | none => true
    | some h => decide (h.method = "ERROR")

/-- Lines 166-204: arm the ignore window (cloud) and send the command.
The result is the device after the statements that ran, and whether an
exception left the block. -/
def send (s : Device) (action : Action) (w : World) : Device × Bool :=
  if action ≠ .undefined then
    match s.connection with
    | .cloud =>
      let s1 := ({ s with ignoreIncoming := true }).setTimeout .ignoreReset 3000
      (s1, !w.controlGarageDoor)
    | .local_ =>
      match w.sendLocalDeviceUpdate with
      | none => (s, true)
      | some res => (s, localResponseRejected res)
    | .other => (s, false)
  else
    (s, false)

/-- Lines 206-220: copy the locals into the cache, logging each change. -/
def updateCache (s : Device) (l : Locals) : Device :=
  let s1 :=
    if s.cacheTarget ≠ l.newTarget then
      let s := { s with cacheTarget := l.newTarget }
      if s.enableLogging then s.logLine (.currentTarget (states s.cacheTarget)) else s
    else s
  if s1.cacheCurrent ≠ l.newCurrent then
    let s2 := { s1 with cacheCurrent := l.newCurrent }
    if s2.enableLogging then s2.logLine (.currentState (states s2.cacheCurrent)) else s2
  else s1

/-- Lines 227-245: after an `open`, store a fresh key and arm the completion
timer; `rnd` is the string produced from `Math.random()`. -/
def armCompletion (s : Device) (action : Action) (rnd : String) : Device :=
  if action = .open_ then
    ({ s with updateKey := some rnd }).setTimeout (.complete rnd) (s.operationTime * 1000)
  else s

/-- Lines 255-263: the `catch` block of `internalTargetUpdate`. -/
def catchSendError (s : Device) : Device :=
  let s1 := s.logLine .sendingUpdateFailed
  let s2 := s1.setTimeout .revert 2000
  { s2 with targetPosition := some (-70402) }

/-- What one call of `internalTargetUpdate` did: the value of `action`, whether
the `catch` block ran, and the device afterwards. -/
structure Outcome where
  action : Action
  threw : Bool
  device : Device
  deriving DecidableEq, Repr

/-- The method `internalTargetUpdate (value)` (lines 89-264). -/
def internalTargetUpdate (s : Device) (value : JsVal) (w : World) (rnd : String) : Outcome :=
  let (l, s1) := transition s value
  let (s2, threw) := send s1 l.action w
  if threw then
    ⟨l.action, true, catchSendError s2⟩
  else
    ⟨l.action, false, armCompletion (updateCache s2 l) l.action rnd⟩

/-! ## Timer callbacks -/

/-- The callback of lines 232-244, which captured `updateKey`. -/
def completeCallback (updateKey : String) (s : Device) : Device :=
  if some updateKey ≠ s.updateKey then s
  else if s.currentDoorState ≠ .num 2 then s
  else
    let s1 := { s with currentDoorState := .num 0, cacheCurrent := .num 0 }
    if s1.enableLogging then s1.logLine (.currentState (states s1.cacheCurrent)) else s1

/-- The callback of lines 171-173. -/
def ignoreResetCallback (s : Device) : Device :=
  { s with ignoreIncoming := false }

/-- The callback of lines 259-261. -/
def revertCallback (s : Device) : Device :=
  { s with targetDoorState := s.cacheTarget }

/-- Run a callback. -/
def Callback.run : Callback → Device → Device
  | .ignoreReset => ignoreResetCallback
  | .complete k => completeCallback k
  | .revert => revertCallback

/-! ## `requestUpdate` and `externalUpdate` -/

/-- The element `data.all.digest.garageDoor[0]`, `none` when one of the links
`all`, `digest`, `garageDoor`, `garageDoor[0]` is missing. -/
def garageDoor0 (data : Payload) : Option DoorEntry :=
  match data.all with
  | none => none
  | some a =>
    match a.digest with
    | none => none
    | some d =>
      match d.garageDoor with
      | none => none
      | some g => g.head?

/-- Reading the property `open` of an entry: `undefined` when it is absent. -/
def DoorEntry.getOpen (e : DoorEntry) : JsVal :=
  match e.open_ with
  | none => .undefined
  | some v => v

/-- Lines 305-356: the `switch (this.cacheCurrent)` of `requestUpdate`. -/
def requestUpdateSwitch (s : Device) (isOpen : JsVal) : Device :=
  if s.cacheCurrent = .num 0 ∨ s.cacheCurrent = .num 2 then
    if isOpen.truthy then s
    else
      let s1 := { s with targetDoorState := .num 1, currentDoorState := .num 1,
                         cacheCurrent := .num 1, cacheTarget := .num 1 }
      (s1.logLine (.targetState (states s1.cacheTarget))).logLine
        (.currentState (states s1.cacheCurrent))
  else if s.cacheCurrent = .num 1 then
    if isOpen.truthy then
      let s1 := { s with targetDoorState := .num 0, currentDoorState := .num 0,
                         cacheCurrent := .num 0, cacheTarget := .num 0 }
      (s1.logLine (.targetState (states s1.cacheTarget))).logLine
        (.currentState (states s1.cacheCurrent))
    else s
  else if s.cacheCurrent = .num 3 then
    if isOpen.truthy then
      let s1 := { s with targetDoorState := .num 0, currentDoorState := .num 0,
                         cacheCurrent := .num 0, cacheTarget := .num 0 }
      (s1.logLine (.targetState (states s1.cacheTarget))).logLine
        (.currentState (states s1.cacheCurrent))
    else
      let s1 := { s with currentDoorState := .num 0, cacheCurrent := .num 0 }
      s1.logLine (.currentState (states s1.cacheCurrent))
  else s

/-- The method `requestUpdate ()` (lines 266-363); `res` is what the poll
request resolves with, `none` when it rejects. -/
def requestUpdate (s : Device) (res : Option Response) : Device :=
  if s.updateInProgress then s
  else
    let s1 := { s with updateInProgress := true }
    match res with
    | none => s1.logLine .failedToRefresh
    | some res =>
      let s2 := if s1.enableDebugLogging then s1.logLine .incomingPoll else s1
      match res.data with
      | none => s2.logLine .failedToRefresh
      | some d =>
        match d.payload with
        | none => s2.logLine .failedToRefresh
        | some data =>
          match garageDoor0 data with
          | some e => requestUpdateSwitch s2 e.getOpen
          | none => s2

/-- Modelled from the spec: `funcs.hasProperty` is not among the sources; the
payload shape `payload.state[0].open` of the spec is read as the entry
carrying a property of that name. -/
def hasPropertyOpen (e : DoorEntry) : Bool :=
  e.open_.isSome

/-- Lines 383-434: the `switch (this.cacheCurrent)` of `externalUpdate`. -/
def externalUpdateSwitch (s : Device) (isOpen : JsVal) : Device :=
  if s.cacheCurrent = .num 0 ∨ s.cacheCurrent = .num 2 then
    if isOpen.truthy then s
    else
      let s1 := { s with targetDoorState := .num 1, currentDoorState := .num 1,
                         cacheCurrent := .num 1, cacheTarget := .num 1 }
      (s1.logLine (.targetState (states s1.cacheTarget))).logLine
        (.currentState (states s1.cacheCurrent))
  else if s.cacheCurrent = .num 1 then
    if isOpen.truthy then
      let s1 := { s with targetDoorState := .num 0, currentDoorState := .num 0,
                         cacheCurrent := .num 0, cacheTarget := .num 0 }
      (s1.logLine (.targetState (states s1.cacheTarget))).logLine
        (.currentState (states s1.cacheCurrent))
    else s
  else if s.cacheCurrent = .num 3 then
    if isOpen.truthy then
      let s1 := { s with targetDoorState := .num 0, currentDoorState := .num 0,
                         cacheCurrent := .num 0, cacheTarget := .num 0 }
      (s1.logLine (.targetState (states s1.cacheTarget))).logLine
        (.currentState (states s1.cacheCurrent))
    else
      let s1 := { s with currentDoorState := .num 0, cacheCurrent := .num 0 }
      s1.logLine (.currentState (states s1.cacheCurrent))
  else s

/-- Line 379: the guard `data.state && data.state[0] && hasProperty(...)`. -/
def stateGuard (data : Payload) : Bool :=
  match data.state with
  | none => false
  | some st =>
    match st.head? with
    | none => false
    | some e => hasPropertyOpen e

/-- The method `externalUpdate (namespace, params)` (lines 365-440).
Line 381 reads `data.all.digest.garageDoor[0].open`; when a link of that chain
is missing the read throws and the `catch` block logs the warning. -/
def externalUpdate (s : Device) (_ns : String) (params : Params) : Device :=
  let s1 := if s.enableDebugLogging then s.logLine .incomingMqtt else s
  match params.payload with
  | none => s1.logLine .failedToRefresh
  | some data =>
    if stateGuard data then
      match garageDoor0 data with
      | none => s1.logLine .failedToRefresh
      | some e => externalUpdateSwitch s1 e.getOpen
    else s1

/-! ## Runs of the device -/

/-- What can happen to a device: a target request from HomeKit (with the
transport answer and the random key it will meet), a poll (with its response),
a pushed message, the firing of the pending timer at a position, and the
`idle` event of the queue. -/
inductive Event where
  | setTarget (value : JsVal) (w : World) (rnd : String)
  | poll (res : Option Response)
  | push (ns : String) (params : Params)
  | fire (i : Nat)
  | idle
  deriving DecidableEq, Repr

/-- One event. A timer leaves the pending list when it fires. -/
def step (s : Device) : Event → Device
  | .setTarget value w rnd => (internalTargetUpdate s value w rnd).device
  | .poll res => requestUpdate s res
  | .push ns params => externalUpdate s ns params
  | .fire i =>
    match s.timers[i]? with
    | none => s
    | some t => t.callback.run { s with timers := s.timers.eraseIdx i }
  | .idle => { s with updateInProgress := false }

/-- A sequence of events, oldest first. -/
def run (s : Device) (es : List Event) : Device :=
  es.foldl step s

/-- A poll response whose `payload.all.digest.garageDoor[0].open` is `v`. -/
def pollResponse (v : JsVal) : Response :=
  ⟨some ⟨some ⟨"GETACK"⟩, some ⟨some ⟨some ⟨some [⟨some v⟩]⟩⟩, none, none⟩⟩⟩

/-- A pushed message whose `payload.state[0].open` is `v`. -/
def pushParams (v : JsVal) : Params :=
  ⟨some ⟨none, some [⟨some v⟩], none⟩⟩

/-- A transport on which every command succeeds. -/
def World.ok : World :=
  ⟨true, some ⟨some ⟨some ⟨"SETACK"⟩, some ⟨none, none, none⟩⟩⟩⟩

/-- A transport on which every command fails. -/
def World.down : World :=
  ⟨false, none⟩

/-- The device on which the `switch` of `requestUpdate` runs: the busy flag is
set and, with debug logging, the poll has been logged. -/
def polled (s : Device) : Device :=
  if s.enableDebugLogging then
    ({ s with updateInProgress := true }).logLine .incomingPoll
  else { s with updateInProgress := true }

/-- The device on which the `switch` of `externalUpdate` runs: with debug logging,
the message has been logged. -/
def pushed (s : Device) : Device :=
  if s.enableDebugLogging then s.logLine .incomingMqtt else s

/-- Whether a callback is the completion callback of lines 232-244. -/
def Callback.isComplete : Callback → Bool
  | .complete _ => true
  | _ => false

/-- The pending completion timers of a device. -/
def Device.completionTimers (s : Device) : List Timer :=
  s.timers.filter (fun t => t.callback.isComplete)

/-- The flag `state[0].open` of a payload is present and falsy. -/
def stateFlagFalsy (data : Payload) : Bool :=
  match data.state with
  | none => false
  | some st =>
    match st.head? with
    | none => false
    | some e => !e.getOpen.truthy

/-- The flag `all.digest.garageDoor[0].open` of a payload is present and falsy. -/
def allFlagFalsy (data : Payload) : Bool :=
  match garageDoor0 data with
  | none => false
  | some e => !e.getOpen.truthy

/-- An event is a status report with the sensor closed: a poll response whose
flag `all.digest.garageDoor[0].open` is falsy, or a pushed message carrying a
falsy flag, at `state[0].open` or at the position line 381 reads. -/
def Event.reportsClosed : Event → Bool
  | .poll (some res) =>
    match res.data with
    | none => false
    | some d =>
      match d.payload with
      | none => false
      | some data => allFlagFalsy data
  | .push _ params =>
    match params.payload with
    | none => false
    | some data => stateFlagFalsy data || allFlagFalsy data
  | _ => false

/-- An event that is neither a target request nor a status report: the firing
of a pending timer or the `idle` event of the queue. -/
def Event.quiet : Event → Bool
  | .fire _ => true
  | .idle => true
  | _ => false

/-- A cloud device whose door is closed, with logging on and an operation time
of 20 seconds. -/
def closedDoor : Device :=
  Device.init .cloud true false 20 (.num 1) (.num 1)

/-- A cloud device whose door is open. -/
def openDoor : Device :=
  Device.init .cloud true false 20 (.num 0) (.num 0)

/-- An open command is accepted (key `k3x9`, completion due after 20 s); one
second later a poll still reports the sensor closed; the ignore window ends;
a second open command fails on the transport; its revert and its ignore window
elapse. The completion timer of the first command is still pending. -/
def failedReopen : List Event :=
  [ .setTarget (.num 0) World.ok "k3x9",
    .poll (some (pollResponse (.num 0))),
    .idle,
    .fire 0,
    .setTarget (.num 0) World.down "q7z2",
    .fire 2,
    .fire 1 ]

/-- An open command is accepted (key `k3x9`); the ignore window ends; a close
command fails on the transport; its revert and its ignore window elapse. -/
def failedClose : List Event :=
  [ .setTarget (.num 0) World.ok "k3x9",
    .fire 0,
    .setTarget (.num 1) World.down "q7z2",
    .fire 2,
    .fire 1 ]

/-- A pushed message that carries the flag `v` both at `payload.state[0].open`
and at `payload.all.digest.garageDoor[0].open`. -/
def pushParamsBoth (v : JsVal) : Params :=
  ⟨some ⟨some ⟨some ⟨some [⟨some v⟩]⟩⟩, some [⟨some v⟩], none⟩⟩

/-- A local device whose door is open. -/
def localOpenDoor : Device :=
  Device.init .local_ true false 20 (.num 0) (.num 0)

/-- A local response with method `SETACK` whose payload carries an `error`. -/
def ackWithError : Response :=
  ⟨some ⟨some ⟨"SETACK"⟩, some ⟨none, none, some "device busy"⟩⟩⟩

/-! ## The cloud client, `lib/connection/cloud/http.js` -/

/-- The value of the property `res.data.data`: a falsy value, an object with
its properties `key`, `token`, `userid` (`none`: undefined), or an array of
device records, each standing by its uuid. -/
inductive ServerValue where
  | falsy
  | object (key token userid : Option String)
  | array (records : List String)
  deriving DecidableEq, Repr

/-- The object `res.data` of an HTTP response; `data` is `none` when the
property is absent. -/
structure ServerData where
  info : Option String
  data : Option ServerValue
  deriving DecidableEq, Repr

/-- How one call of `axios` settles: it resolves with `res` (`none`: `res.data`
is falsy) or rejects with an error carrying `code`. -/
inductive AxiosOutcome where
  | resolves (data : Option ServerData)
  | rejects (code : Option String)
  deriving DecidableEq, Repr

/-- A request handed to `axios`: the endpoint and the fields that vary. -/
inductive Request where
  | login (email password : String)
  | devList (token : Option String)
  | getSubDevices (token : Option String) (uuid : String)
  deriving DecidableEq, Repr

/-- What a method of the client throws: an `Error` built by the class (its
text, without the appended JSON), the error `axios` rejected with, or the
`TypeError` of reading `httpRetry` from an undefined `this.lang`. -/
inductive HttpError where
  | error (text : String)
  | axios (code : Option String)
  | typeError
  deriving DecidableEq, Repr

/-- The lines the client writes through `this.log.warn`. -/
inductive HttpLog where
  | merossKey (key : Option String)
  | httpRetry (method code : String)
  deriving DecidableEq, Repr

/-- The object `{ key, token, userid }` that `login` returns. -/
structure Credentials where
  key : Option String
  token : Option String
  userid : Option String
  deriving DecidableEq, Repr

/-- The value a listing method returns. -/
inductive Returned where
  | records (list : List String)
  | credentials (c : Credentials)
  deriving DecidableEq, Repr

/-- The state of a `connectionHTTP` object, with the list `consts.httpRetryCodes`
it consults, the requests it has made, its warnings and the number of
30-second sleeps it has taken. The constructor assigns neither `lang` nor
`base64Tried`, `key`, `token`, `userid`. -/
structure Http where
  debug : Bool
  username : String
  password : String
  userkey : Option String
  httpRetryCodes : List String
  lang : Option String
  base64Tried : Bool
  key : Option String
  token : Option String
  userid : Option String
  requests : List Request
  log : List HttpLog
  sleeps : Nat
  deriving DecidableEq, Repr

/-- The object as the constructor leaves it (lines 9-17). -/
def Http.init (debug : Bool) (username password : String) (userkey : Option String)
    (httpRetryCodes : List String) : Http :=
  { debug := debug
    username := username
    password := password
    userkey := userkey
    httpRetryCodes := httpRetryCodes
    lang := none
    base64Tried := false
    key := none
    token := none
    userid := none
    requests := []
    log := []
    sleeps := 0 }

/-- Truthiness of a string-valued property: defined and not empty. -/
def truthyString : Option String → Bool
  | none => false
  | some t => decide (t ≠ "")

/-- Truthiness of `res.data.data`. -/
def truthyValue : Option ServerValue → Bool
  | none => false
  | some .falsy => false
  | some _ => true

/-- The properties `key`, `token`, `userid` of `res.data.data`. -/
def ServerValue.credentials : ServerValue → Credentials
  | .object k t u => ⟨k, t, u⟩
  | _ => ⟨none, none, none⟩

/-- The message the server sends for a credential mismatch (line 59). -/
def credentialMismatch : String :=
  "Username is not exist or password is wrong"

/-- The white space that `String.prototype.trim` removes. -/
def jsWhiteSpace (c : Char) : Bool :=
  let n := c.toNat
  n = 0x09 || n = 0x0A || n = 0x0B || n = 0x0C || n = 0x0D || n = 0x20 || n = 0xA0 ||
  n = 0x1680 || (0x2000 ≤ n && n ≤ 0x200A) || n = 0x2028 || n = 0x2029 || n = 0x202F ||
  n = 0x205F || n = 0x3000 || n = 0xFEFF

/-- The method `trim` of a string. -/
def jsTrim (t : String) : String :=
  String.mk (((t.toList.dropWhile jsWhiteSpace).reverse.dropWhile jsWhiteSpace).reverse)

/-- The call `.replace(/(\r\n|\n|\r)/gm, '')`: every carriage return and line
feed is removed. -/
def stripLineBreaks (t : String) : String :=
  String.mk (t.toList.filter (fun c => c.toNat ≠ 13 && c.toNat ≠ 10))

/-- Lines 64-67: the password decoded from base64, without line breaks, trimmed.
`fromBase64` stands for `Buffer.from(_, 'base64').toString('utf8')`. -/
def decodePassword (fromBase64 : String → String) (password : String) : String :=
  jsTrim (stripLineBreaks (fromBase64 password))

/-- The result of a method that has settled: what it returned or threw, the
object afterwards and the `axios` outcomes not yet consumed. -/
abbrev Settled (α : Type) := Except HttpError α × Http × List AxiosOutcome

/-- The test of the `catch` blocks: `err.code && httpRetryCodes.includes(err.code)`. -/
def retryable (h : Http) : HttpError → Option String
  | .axios (some code) => if code ≠ "" ∧ code ∈ h.httpRetryCodes then some code else none
  | _ => none

/-- Lines 20-83: the `try` block of `login`. The list holds how the successive
calls of `axios` settle (`none`: the call never settles); `retry` stands for the
nested call `this.login()` of line 68. -/
def loginTry (fromBase64 : String → String)
    (retry : List AxiosOutcome → Http → Option (Settled Credentials))
    (outs : List AxiosOutcome) (h : Http) : Option (Settled Credentials) :=
  match outs with
  | [] => none
  | o :: rest =>
    let h1 := { h with requests := h.requests ++ [.login h.username h.password] }
    match o with
    | .rejects code => some (.error (.axios code), h1, rest)
    | .resolves none =>
      some (.error (.error "no response received from Meross server"), h1, rest)
    | .resolves (some d) =>
      if !truthyString d.info || decide (d.info ≠ some "Success") || !truthyValue d.data then
        if d.info = some credentialMismatch then
          if h1.base64Tried then
            some (.error (.error credentialMismatch), h1, rest)
          else
            retry rest
              { h1 with base64Tried := true,
                        password := decodePassword fromBase64 h1.password }
        else
          some (.error (.error (if truthyString d.info then d.info.getD ""
            else "login failed - ")), h1, rest)
      else
        let c := (d.data.getD .falsy).credentials
        let h2 := { h1 with key := c.key, token := c.token, userid := c.userid }
        let h3 := if h2.debug && !truthyString h2.userkey then
          { h2 with log := h2.log ++ [.merossKey h2.key] } else h2
        some (.ok c, h3, rest)

/-- Lines 84-93: the `catch` block of `login`, applied to what the `try` block
produced; `retry` stands for the nested call `this.login()` of line 89. -/
def loginCatch (retry : List AxiosOutcome → Http → Option (Settled Credentials)) :
    Option (Settled Credentials) → Option (Settled Credentials)
  | none => none
  | some (.ok c, h1, rest) => some (.ok c, h1, rest)
  | some (.error err, h1, rest) =>
    match retryable h1 err with
    | none => some (.error err, h1, rest)
    | some code =>
      match h1.lang with
      | none => some (.error .typeError, h1, rest)
      | some _ =>
        retry rest
          { h1 with log := h1.log ++ [.httpRetry "login()" code], sleeps := h1.sleeps + 1 }

/-- The method `login ()` (lines 19-94). The result is `none` when the list of
outcomes or the bound on nested calls runs out before the method settles. -/
def login (fromBase64 : String → String) : Nat → List AxiosOutcome → Http →
    Option (Settled Credentials)
  | 0, _, _ => none
  | fuel + 1, outs, h =>
    loginCatch (login fromBase64 fuel) (loginTry fromBase64 (login fromBase64 fuel) outs h)

/-- Lines 96-140 and 158-203: the `try` block shared, up to the endpoint and the
text of the error, by `getDevices` and `getSubDevices`. -/
def listTry (req : Request) (invalid : String) (outs : List AxiosOutcome) (h : Http) :
    Option (Settled Returned) :=
  if !truthyString h.key || !truthyString h.token || !truthyString h.userid then
    some (.error (.error "not authenticated"), h, outs)
  else
    match outs with
    | [] => none
    | o :: rest =>
      let h1 := { h with requests := h.requests ++ [req] }
      match o with
      | .rejects code => some (.error (.axios code), h1, rest)
      | .resolves none =>
        some (.error (.error "no response received from Meross server"), h1, rest)
      | .resolves (some d) =>
        match d.info, d.data with
        | some "Success", some (.array records) => some (.ok (.records records), h1, rest)
        | _, _ => some (.error (.error invalid), h1, rest)

/-- Lines 146-155 and 209-218: the `catch` block shared by `getDevices` and
`getSubDevices`; on a code worth a retry it returns the result of `login`. -/
def listCatch (fromBase64 : String → String) (fuel : Nat) :
    Option (Settled Returned) → Option (Settled Returned)
  | none => none
  | some (.ok v, h1, rest) => some (.ok v, h1, rest)
  | some (.error err, h1, rest) =>
    match retryable h1 err with
    | none => some (.error err, h1, rest)
    | some code =>
      match h1.lang with
      | none => some (.error .typeError, h1, rest)
      | some _ =>
        match login fromBase64 fuel rest
            { h1 with log := h1.log ++ [.httpRetry "getDevices()" code],
                      sleeps := h1.sleeps + 1 } with
        | none => none
        | some (.ok c, h2, rest2) => some (.ok (.credentials c), h2, rest2)
        | some (.error e, h2, rest2) => some (.error e, h2, rest2)

/-- The method `getDevices ()` (lines 96-156). -/
def getDevices (fromBase64 : String → String) (fuel : Nat) (outs : List AxiosOutcome)
    (h : Http) : Option (Settled Returned) :=
  listCatch fromBase64 fuel
    (listTry (.devList h.token) "invalid device list received - " outs h)

/-- The method `getSubDevices (device)` (lines 158-220); `uuid` is `device.uuid`. -/
def getSubDevices (fromBase64 : String → String) (fuel : Nat) (uuid : String)
    (outs : List AxiosOutcome) (h : Http) : Option (Settled Returned) :=
  listCatch fromBase64 fuel
    (listTry (.getSubDevices h.token uuid) "invalid subdevice list received - " outs h)

/-- A client that has logged in, on which `lang` has been assigned; it retries
on the code `ETIMEDOUT`. -/
def loggedIn : Http :=
  { Http.init false "user@example.com" "secret" none ["ETIMEDOUT"] with
    lang := some "retrying in 30 seconds"
    key := some "key0"
    token := some "token0"
    userid := some "42" }

/-- The same client with `lang` as the constructor leaves it. -/
def loggedInNoLang : Http :=
  { loggedIn with lang := none }

/-- A transport error worth a retry, then the answer of the server to the
login request that follows. -/
def timeoutThenLogin : List AxiosOutcome :=
  [ .rejects (some "ETIMEDOUT"),
    .resolves (some ⟨some "Success", some (.object (some "key1") (some "token1") (some "42"))⟩) ]

/-- A cloud device whose cached current is stopped (4), with target open. -/
def stoppedDoor : Device :=
  Device.init .cloud true false 20 (.num 0) (.num 4)

/-- A cloud device that is closing: target closed (1), current closing (3). -/
def closingDoor : Device :=
  Device.init .cloud true false 20 (.num 1) (.num 3)

/-- A poll response with `data` and `payload` but without `payload.all`. -/
def pollWithoutAll : Response :=
  ⟨some ⟨some ⟨"GETACK"⟩, some ⟨none, none, none⟩⟩⟩

/-- The value of a character of the base64 alphabet, in its standard and its
URL-safe spelling; `none` for every other character. -/
def base64Value (c : Char) : Option Nat :=
  let n := c.toNat
  if 65 ≤ n ∧ n ≤ 90 then some (n - 65)
  else if 97 ≤ n ∧ n ≤ 122 then some (n - 71)
  else if 48 ≤ n ∧ n ≤ 57 then some (n + 4)
  else if n = 43 ∨ n = 45 then some 62
  else if n = 47 ∨ n = 95 then some 63
  else none

/-- The bytes that a sequence of 6-bit values encodes. -/
def base64Bytes : List Nat → List Nat
  | a :: b :: c :: d :: rest =>
    (a * 4 + b / 16) :: ((b % 16) * 16 + c / 4) :: ((c % 4) * 64 + d) :: base64Bytes rest
  | [a, b, c] => [a * 4 + b / 16, (b % 16) * 16 + c / 4]
  | [a, b] => [a * 4 + b / 16]
  | _ => []

/-- An instance of the parameter `fromBase64` of `login`: base64 decoding, up to
the first padding character, of a text whose decoded bytes are ASCII. -/
def asciiFromBase64 (t : String) : String :=
  String.mk ((base64Bytes ((t.toList.takeWhile (fun c => c.toNat ≠ 61)).filterMap
    base64Value)).map Char.ofNat)

/-- A client as the constructor builds it, whose configured password is the
base64 text of two blanks, `hun`, a carriage return and line feed, `ter2`, a
blank and a line feed. -/
def encodedPasswordClient : Http :=
  Http.init false "user@example.com" "ICBodW4NCnRlcjIgCg==" none ["ETIMEDOUT"]

/-- A device list answered by the server. -/
def deviceListAnswer : List AxiosOutcome :=
  [ .resolves (some ⟨some "Success", some (.array ["uuid-1", "uuid-2"])⟩) ]

/-! ## The transition table of `internalTargetUpdate` -/

/-- The action reported by `internalTargetUpdate` is the one `transition` chose. -/
theorem internalTargetUpdate_action (s : Device) (value : JsVal) (w : World) (rnd : String) :
    (internalTargetUpdate s value w rnd).action = (transition s value).1.action := by
  unfold internalTargetUpdate
  simp only
  split <;> rfl

/-- Nothing is sent, hence nothing can throw, when `action` is undefined. -/
theorem send_undefined (s : Device) (w : World) : send s .undefined w = (s, false) := by
  simp [send]

/-- The cache fields after `updateCache` are the locals. -/
theorem updateCache_cache (s : Device) (l : Locals) :
    (updateCache s l).cacheTarget = l.newTarget ∧
    (updateCache s l).cacheCurrent = l.newCurrent := by
  unfold updateCache
  by_cases h1 : s.cacheTarget = l.newTarget <;> by_cases h2 : s.cacheCurrent = l.newCurrent <;>
    cases h3 : s.enableLogging <;> simp [h1, h2, h3, Device.logLine]

/-- Arming the completion timer leaves the cache alone. -/
theorem armCompletion_cache (s : Device) (a : Action) (rnd : String) :
    (armCompletion s a rnd).cacheTarget = s.cacheTarget ∧
    (armCompletion s a rnd).cacheCurrent = s.cacheCurrent := by
  unfold armCompletion
  split <;> simp [Device.setTimeout]

/-- Sending leaves the cache, the key and the two characteristics alone. -/
theorem send_fields (s : Device) (a : Action) (w : World) :
    (send s a w).1.cacheTarget = s.cacheTarget ∧
    (send s a w).1.cacheCurrent = s.cacheCurrent ∧
    (send s a w).1.updateKey = s.updateKey ∧
    (send s a w).1.targetDoorState = s.targetDoorState ∧
    (send s a w).1.currentDoorState = s.currentDoorState ∧
    (send s a w).1.enableLogging = s.enableLogging ∧
    (send s a w).1.operationTime = s.operationTime := by
  unfold send
  split
  · split
    · simp [Device.setTimeout]
    · split <;> simp
    · simp
  · simp

/-- The branch of lines 93-163 leaves the cache and the key alone. -/
theorem transition_fields (s : Device) (value : JsVal) :
    (transition s value).2.cacheTarget = s.cacheTarget ∧
    (transition s value).2.cacheCurrent = s.cacheCurrent ∧
    (transition s value).2.updateKey = s.updateKey ∧
    (transition s value).2.timers = s.timers ∧
    (transition s value).2.enableLogging = s.enableLogging := by
  unfold transition
  split_ifs <;> simp

/-- C1. For a cached current state `c` in 0..3 and a requested target `v` in 0..1,
`internalTargetUpdate` computes exactly the tabulated action, new target and new
current; no action means no failure; and whenever the call does not fail the
cached target and current end equal to the new target and the new current. -/
theorem internalTargetUpdate_table (s : Device) (w : World) (rnd : String) (c v : Nat)
    (hc : s.cacheCurrent = .num c) :
    let o := internalTargetUpdate s (.num v) w rnd
    let l := (transition s (.num v)).1
    o.action = l.action ∧
    (c = 0 ∧ v = 1 → l = ⟨.close, .num 1, .num 3⟩) ∧
    (c = 0 ∧ v = 0 → l = ⟨.undefined, .num 0, .num 0⟩) ∧
    (c = 1 ∧ v = 1 → l = ⟨.undefined, .num 1, .num 1⟩) ∧
    (c = 1 ∧ v = 0 → l = ⟨.open_, .num 0, .num 2⟩) ∧
    (c = 2 ∧ v = 1 → l = ⟨.close, .num 1, .num 3⟩) ∧
    (c = 2 ∧ v = 0 → l = ⟨.undefined, .num 0, .num 2⟩) ∧
    (c = 3 ∧ v = 1 → l = ⟨.undefined, .num 1, .num 3⟩) ∧
    (c = 3 ∧ v = 0 → l = ⟨.open_, .num 0, .num 2⟩) ∧
    (l.action = .undefined → o.threw = false) ∧
    (o.threw = false →
      o.device.cacheTarget = l.newTarget ∧ o.device.cacheCurrent = l.newCurrent) := by
  intro o l
  refine ⟨internalTargetUpdate_action s _ w rnd, ?_, ?_, ?_, ?_, ?_, ?_, ?_, ?_, ?_, ?_⟩
  · rintro ⟨rfl, rfl⟩; simp [l, transition, hc]
  · rintro ⟨rfl, rfl⟩; simp [l, transition, hc]
  · rintro ⟨rfl, rfl⟩; simp [l, transition, hc]
  · rintro ⟨rfl, rfl⟩; simp [l, transition, hc]
  · rintro ⟨rfl, rfl⟩; simp [l, transition, hc]
  · rintro ⟨rfl, rfl⟩; simp [l, transition, hc]
  · rintro ⟨rfl, rfl⟩; simp [l, transition, hc]
  · rintro ⟨rfl, rfl⟩; simp [l, transition, hc]
  · intro ha
    have hs := send_undefined (transition s (.num v)).2 w
    simp only [o, internalTargetUpdate]
    simp only [l] at ha
    rw [ha, hs]
    simp
  · intro ht
    simp only [o, internalTargetUpdate] at ht ⊢
    split at ht
    · simp at ht
    · rename_i hthrew
      simp only [hthrew, Bool.false_eq_true, if_false]
      have h1 := armCompletion_cache
        (updateCache (send (transition s (.num v)).2 (transition s (.num v)).1.action w).1
          (transition s (.num v)).1) (transition s (.num v)).1.action rnd
      have h2 := updateCache_cache
        (send (transition s (.num v)).2 (transition s (.num v)).1.action w).1
        (transition s (.num v)).1
      exact ⟨h1.1.trans h2.1, h1.2.trans h2.2⟩

/-- Instance of C1: a closed door, an open request over a working cloud
transport. -/
theorem internalTargetUpdate_table_witness :
    (Device.init .cloud true false 20 (.num 1) (.num 1)).cacheCurrent = .num 1 ∧
    (internalTargetUpdate (Device.init .cloud true false 20 (.num 1) (.num 1)) (.num 0)
        World.ok "k3x9").action = .open_ ∧
    ((internalTargetUpdate (Device.init .cloud true false 20 (.num 1) (.num 1)) (.num 0)
        World.ok "k3x9").threw = false →
      (internalTargetUpdate (Device.init .cloud true false 20 (.num 1) (.num 1)) (.num 0)
        World.ok "k3x9").device.cacheTarget = .num 0 ∧
      (internalTargetUpdate (Device.init .cloud true false 20 (.num 1) (.num 1)) (.num 0)
        World.ok "k3x9").device.cacheCurrent = .num 2) := by
  have h := internalTargetUpdate_table (Device.init .cloud true false 20 (.num 1) (.num 1))
    World.ok "k3x9" 1 0 rfl
  have ha := h.1
  have hl := h.2.2.2.2.1 ⟨rfl, rfl⟩
  have hs := h.2.2.2.2.2.2.2.2.2.2
  rw [hl] at ha hs
  exact ⟨rfl, ha, hs⟩

/-! ## Reconciliation on the poll path -/

/-- The cache of `polled s` is the cache of `s`. -/
theorem polled_cache (s : Device) :
    (polled s).cacheTarget = s.cacheTarget ∧ (polled s).cacheCurrent = s.cacheCurrent := by
  unfold polled
  split <;> simp [Device.logLine]

/-- On a response of the expected shape, `requestUpdate` runs its `switch` on the
flag `garageDoor[0].open`. -/
theorem requestUpdate_wellFormed (s : Device) (res : Response) (d : ResData) (data : Payload)
    (e : DoorEntry) (hp : s.updateInProgress = false) (hres : res.data = some d)
    (hd : d.payload = some data) (hg : garageDoor0 data = some e) :
    requestUpdate s (some res) = requestUpdateSwitch (polled s) e.getOpen := by
  simp [requestUpdate, hp, hres, hd, hg, polled]

/-- The cache after the `switch` of `requestUpdate`, case by case. -/
theorem requestUpdateSwitch_cache (s : Device) (isOpen : JsVal) :
    let s1 := requestUpdateSwitch s isOpen
    ((s.cacheCurrent = .num 0 ∨ s.cacheCurrent = .num 2) → isOpen.truthy = true →
      s1.cacheTarget = s.cacheTarget ∧ s1.cacheCurrent = s.cacheCurrent) ∧
    ((s.cacheCurrent = .num 0 ∨ s.cacheCurrent = .num 2) → isOpen.truthy = false →
      s1.cacheTarget = .num 1 ∧ s1.cacheCurrent = .num 1) ∧
    (s.cacheCurrent = .num 1 → isOpen.truthy = true →
      s1.cacheTarget = .num 0 ∧ s1.cacheCurrent = .num 0) ∧
    (s.cacheCurrent = .num 1 → isOpen.truthy = false →
      s1.cacheTarget = s.cacheTarget ∧ s1.cacheCurrent = s.cacheCurrent) ∧
    (s.cacheCurrent = .num 3 → isOpen.truthy = true →
      s1.cacheTarget = .num 0 ∧ s1.cacheCurrent = .num 0) ∧
    (s.cacheCurrent = .num 3 → isOpen.truthy = false →
      s1.cacheTarget = s.cacheTarget ∧ s1.cacheCurrent = .num 0) := by
  intro s1
  refine ⟨?_, ?_, ?_, ?_, ?_, ?_⟩
  · intro hc ht; simp [s1, requestUpdateSwitch, hc, ht]
  · intro hc ht; simp [s1, requestUpdateSwitch, hc, ht, Device.logLine]
  · intro hc ht; simp [s1, requestUpdateSwitch, hc, ht, Device.logLine]
  · intro hc ht; simp [s1, requestUpdateSwitch, hc, ht]
  · intro hc ht; simp [s1, requestUpdateSwitch, hc, ht, Device.logLine]
  · intro hc ht; simp [s1, requestUpdateSwitch, hc, ht, Device.logLine]

/-- C2, the code at the failing input. A door that was open is asked to close
(current becomes closing, target closed); the next poll reports the sensor
closed (`open` is 0). The cached current becomes 0, open, not 1, closed: line
352 assigns 0 under the comment "Meross has reported closed". -/
theorem requestUpdate_closing_sensor_closed :
    (run (Device.init .local_ true false 20 (.num 0) (.num 0))
      [.setTarget (.num 1) World.ok "k3x9"]).cacheCurrent = .num 3 ∧
    (run (Device.init .local_ true false 20 (.num 0) (.num 0))
      [.setTarget (.num 1) World.ok "k3x9"]).cacheTarget = .num 1 ∧
    (run (Device.init .local_ true false 20 (.num 0) (.num 0))
      [.setTarget (.num 1) World.ok "k3x9",
       .poll (some (pollResponse (.num 0)))]).cacheCurrent = .num 0 ∧
    (run (Device.init .local_ true false 20 (.num 0) (.num 0))
      [.setTarget (.num 1) World.ok "k3x9",
       .poll (some (pollResponse (.num 0)))]).cacheTarget = .num 1 := by
  refine ⟨?_, ?_, ?_, ?_⟩ <;> rfl

/-- C3. On a poll response of the expected shape, with cached current open,
opening or closed: a sensor flag that agrees with the cache (truthy for open or
opening, falsy for closed) leaves cached target and current unchanged; a flag
that disagrees forces both to the rest state of the sensor (closed, closed for a
falsy flag; open, open for a truthy one). -/
theorem requestUpdate_reconcile_open_opening_closed (s : Device) (res : Response)
    (d : ResData) (data : Payload) (e : DoorEntry) (hp : s.updateInProgress = false)
    (hres : res.data = some d) (hd : d.payload = some data)
    (hg : garageDoor0 data = some e) :
    let s1 := requestUpdate s (some res)
    ((s.cacheCurrent = .num 0 ∨ s.cacheCurrent = .num 2) → e.getOpen.truthy = true →
      s1.cacheTarget = s.cacheTarget ∧ s1.cacheCurrent = s.cacheCurrent) ∧
    (s.cacheCurrent = .num 1 → e.getOpen.truthy = false →
      s1.cacheTarget = s.cacheTarget ∧ s1.cacheCurrent = s.cacheCurrent) ∧
    ((s.cacheCurrent = .num 0 ∨ s.cacheCurrent = .num 2) → e.getOpen.truthy = false →
      s1.cacheTarget = .num 1 ∧ s1.cacheCurrent = .num 1) ∧
    (s.cacheCurrent = .num 1 → e.getOpen.truthy = true →
      s1.cacheTarget = .num 0 ∧ s1.cacheCurrent = .num 0) := by
  intro s1
  have hw : s1 = requestUpdateSwitch (polled s) e.getOpen :=
    requestUpdate_wellFormed s res d data e hp hres hd hg
  have hsw := requestUpdateSwitch_cache (polled s) e.getOpen
  simp only [(polled_cache s).1, (polled_cache s).2] at hsw
  rw [hw]
  exact ⟨hsw.1, hsw.2.2.2.1, hsw.2.1, hsw.2.2.1⟩

/-- Instance of C3: a door cached as opening, a poll that reports the sensor
closed. -/
theorem requestUpdate_reconcile_open_opening_closed_witness :
    (requestUpdate (Device.init .cloud true false 20 (.num 0) (.num 2))
      (some (pollResponse (.num 0)))).cacheTarget = .num 1 ∧
    (requestUpdate (Device.init .cloud true false 20 (.num 0) (.num 2))
      (some (pollResponse (.num 0)))).cacheCurrent = .num 1 :=
  (requestUpdate_reconcile_open_opening_closed
    (Device.init .cloud true false 20 (.num 0) (.num 2)) (pollResponse (.num 0))
    ⟨some ⟨"GETACK"⟩, some ⟨some ⟨some ⟨some [⟨some (.num 0)⟩]⟩⟩, none, none⟩⟩
    ⟨some ⟨some ⟨some [⟨some (.num 0)⟩]⟩⟩, none, none⟩ ⟨some (.num 0)⟩
    rfl rfl rfl rfl).2.2.1 (Or.inr rfl) rfl

/-- C4. On a poll response of the expected shape, with cached current closing
and a truthy sensor flag, cached target and cached current both become open. -/
theorem requestUpdate_closing_sensor_open (s : Device) (res : Response)
    (d : ResData) (data : Payload) (e : DoorEntry) (hp : s.updateInProgress = false)
    (hres : res.data = some d) (hd : d.payload = some data)
    (hg : garageDoor0 data = some e) (hc : s.cacheCurrent = .num 3)
    (ht : e.getOpen.truthy = true) :
    (requestUpdate s (some res)).cacheTarget = .num 0 ∧
    (requestUpdate s (some res)).cacheCurrent = .num 0 := by
  rw [requestUpdate_wellFormed s res d data e hp hres hd hg]
  exact (requestUpdateSwitch_cache (polled s) e.getOpen).2.2.2.2.1
    ((polled_cache s).2.trans hc) ht

/-- Instance of C4: a door cached as closing with target closed, a poll that
reports the sensor open. -/
theorem requestUpdate_closing_sensor_open_witness :
    (requestUpdate (Device.init .cloud true false 20 (.num 1) (.num 3))
      (some (pollResponse (.bool true)))).cacheTarget = .num 0 ∧
    (requestUpdate (Device.init .cloud true false 20 (.num 1) (.num 3))
      (some (pollResponse (.bool true)))).cacheCurrent = .num 0 :=
  requestUpdate_closing_sensor_open
    (Device.init .cloud true false 20 (.num 1) (.num 3)) (pollResponse (.bool true))
    ⟨some ⟨"GETACK"⟩, some ⟨some ⟨some ⟨some [⟨some (.bool true)⟩]⟩⟩, none, none⟩⟩
    ⟨some ⟨some ⟨some [⟨some (.bool true)⟩]⟩⟩, none, none⟩ ⟨some (.bool true)⟩
    rfl rfl rfl rfl rfl rfl

/-- C5, the code at the failing input. A door cached as closed receives the
flag `true`. Delivered by a poll (`payload.all.digest.garageDoor[0].open`) it
flips target and current to open; delivered by a push (`payload.state[0].open`)
it changes neither, because line 381 reads the flag from `data.all`, which a
pushed payload does not carry, and the read throws into the `catch`. -/
theorem externalUpdate_differs_from_requestUpdate :
    (requestUpdate (Device.init .cloud true false 20 (.num 1) (.num 1))
      (some (pollResponse (.bool true)))).cacheTarget = .num 0 ∧
    (requestUpdate (Device.init .cloud true false 20 (.num 1) (.num 1))
      (some (pollResponse (.bool true)))).cacheCurrent = .num 0 ∧
    (externalUpdate (Device.init .cloud true false 20 (.num 1) (.num 1))
      "Appliance.GarageDoor.State" (pushParams (.bool true))).cacheTarget = .num 1 ∧
    (externalUpdate (Device.init .cloud true false 20 (.num 1) (.num 1))
      "Appliance.GarageDoor.State" (pushParams (.bool true))).cacheCurrent = .num 1 ∧
    (externalUpdate (Device.init .cloud true false 20 (.num 1) (.num 1))
      "Appliance.GarageDoor.State" (pushParams (.bool true))).log = [.failedToRefresh] := by
  refine ⟨?_, ?_, ?_, ?_, ?_⟩ <;> rfl

/-! ## The completion timer -/

/-- C6, as stated, fails. After `failedReopen` the live key is the captured key
and the cached current is closed, not opening, yet the callback changes the
cached current to open: the callback tests the `CurrentDoorState`
characteristic, which the failed command left at opening. After `failedClose`
the key matches and the cached current is opening, yet the callback changes
nothing: the characteristic was left at closing. -/
theorem completeCallback_not_keyed_on_cache :
    (run closedDoor failedReopen).updateKey = some "k3x9" ∧
    (run closedDoor failedReopen).timers = [⟨20000, .complete "k3x9"⟩] ∧
    (run closedDoor failedReopen).cacheCurrent = .num 1 ∧
    (completeCallback "k3x9" (run closedDoor failedReopen)).cacheCurrent = .num 0 ∧
    (run closedDoor failedClose).updateKey = some "k3x9" ∧
    (run closedDoor failedClose).timers = [⟨20000, .complete "k3x9"⟩] ∧
    (run closedDoor failedClose).cacheCurrent = .num 2 ∧
    (completeCallback "k3x9" (run closedDoor failedClose)).cacheCurrent = .num 2 := by
  refine ⟨?_, ?_, ?_, ?_, ?_, ?_, ?_, ?_⟩ <;> rfl

/-- C6, amended. When a completion callback fires: if the key it captured is
not the live `updateKey`, the device is unchanged; otherwise, if the value of the
`CurrentDoorState` characteristic is not opening (2), the device is unchanged;
otherwise the characteristic and `cacheCurrent` become open (0), the line
`current state [open]` is logged when logging is enabled, and nothing else
changes. -/
theorem completeCallback_spec (k : String) (s : Device) :
    (some k ≠ s.updateKey → completeCallback k s = s) ∧
    (some k = s.updateKey → s.currentDoorState ≠ .num 2 → completeCallback k s = s) ∧
    (some k = s.updateKey → s.currentDoorState = .num 2 →
      completeCallback k s =
        { s with currentDoorState := .num 0, cacheCurrent := .num 0,
                 log := if s.enableLogging then s.log ++ [.currentState (some "open")]
                        else s.log }) := by
  refine ⟨?_, ?_, ?_⟩
  · intro h; simp [completeCallback, h]
  · intro h1 h2; simp [completeCallback, h1, h2]
  · intro h1 h2
    cases hl : s.enableLogging <;>
      simp [completeCallback, h1, h2, hl, Device.logLine, states]

/-- Instance of C6 amended: the completion timer of an accepted open command
fires while the characteristic still shows opening. -/
theorem completeCallback_spec_witness :
    completeCallback "k3x9" (run closedDoor [.setTarget (.num 0) World.ok "k3x9"]) =
      { run closedDoor [.setTarget (.num 0) World.ok "k3x9"] with
        currentDoorState := .num 0, cacheCurrent := .num 0,
        log := [.currentTarget (some "open"), .currentState (some "opening"),
                .currentState (some "open")] } :=
  (completeCallback_spec "k3x9" (run closedDoor [.setTarget (.num 0) World.ok "k3x9"])).2.2
    rfl rfl

/-! ## Only a report of the closed sensor marks the door closed -/

/-- The `catch` block leaves the cache, the key and the characteristics alone. -/
theorem catchSendError_fields (s : Device) :
    (catchSendError s).cacheTarget = s.cacheTarget ∧
    (catchSendError s).cacheCurrent = s.cacheCurrent ∧
    (catchSendError s).updateKey = s.updateKey ∧
    (catchSendError s).timers = s.timers ++ [⟨2000, .revert⟩] := by
  simp [catchSendError, Device.logLine, Device.setTimeout]

/-- The new current chosen by `transition` is closed only from closed. -/
theorem transition_newCurrent_ne_closed (s : Device) (value : JsVal)
    (hs : s.cacheCurrent ≠ .num 1) : (transition s value).1.newCurrent ≠ .num 1 := by
  unfold transition
  split_ifs <;> simp_all

/-- The cached current after `internalTargetUpdate`: untouched on failure, the
new current otherwise. -/
theorem internalTargetUpdate_cacheCurrent (s : Device) (value : JsVal) (w : World)
    (rnd : String) :
    (internalTargetUpdate s value w rnd).device.cacheCurrent =
      if (internalTargetUpdate s value w rnd).threw then s.cacheCurrent
      else (transition s value).1.newCurrent := by
  simp only [internalTargetUpdate]
  split
  · rename_i h
    simp only [h, if_true]
    rw [(catchSendError_fields _).2.1, (send_fields _ _ _).2.1, (transition_fields _ _).2.1]
  · rename_i h
    simp only [h, Bool.false_eq_true, if_false]
    rw [(armCompletion_cache _ _ _).2, (updateCache_cache _ _).2]

/-- The cached target after `internalTargetUpdate`: untouched on failure, the
new target otherwise. -/
theorem internalTargetUpdate_cacheTarget (s : Device) (value : JsVal) (w : World)
    (rnd : String) :
    (internalTargetUpdate s value w rnd).device.cacheTarget =
      if (internalTargetUpdate s value w rnd).threw then s.cacheTarget
      else (transition s value).1.newTarget := by
  simp only [internalTargetUpdate]
  split
  · rename_i h
    simp only [h, if_true]
    rw [(catchSendError_fields _).1, (send_fields _ _ _).1, (transition_fields _ _).1]
  · rename_i h
    simp only [h, Bool.false_eq_true, if_false]
    rw [(armCompletion_cache _ _ _).1, (updateCache_cache _ _).1]

/-- A target request never turns a current that is not closed into closed. -/
theorem internalTargetUpdate_ne_closed (s : Device) (value : JsVal) (w : World)
    (rnd : String) (hs : s.cacheCurrent ≠ .num 1) :
    (internalTargetUpdate s value w rnd).device.cacheCurrent ≠ .num 1 := by
  rw [internalTargetUpdate_cacheCurrent]
  split
  · exact hs
  · exact transition_newCurrent_ne_closed s value hs

/-- No callback turns a current that is not closed into closed. -/
theorem callback_ne_closed (cb : Callback) (s : Device) (hs : s.cacheCurrent ≠ .num 1) :
    (cb.run s).cacheCurrent ≠ .num 1 := by
  cases cb with
  | ignoreReset => simpa [Callback.run, ignoreResetCallback] using hs
  | revert => simpa [Callback.run, revertCallback] using hs
  | complete k =>
    simp only [Callback.run, completeCallback]
    split_ifs <;> simp_all [Device.logLine]

/-- With a truthy flag the `switch` of `requestUpdate` never produces closed. -/
theorem requestUpdateSwitch_ne_closed (s : Device) (isOpen : JsVal)
    (ht : isOpen.truthy = true) (hs : s.cacheCurrent ≠ .num 1) :
    (requestUpdateSwitch s isOpen).cacheCurrent ≠ .num 1 := by
  unfold requestUpdateSwitch
  split_ifs <;> simp_all [Device.logLine]

/-- With a truthy flag the `switch` of `externalUpdate` never produces closed. -/
theorem externalUpdateSwitch_ne_closed (s : Device) (isOpen : JsVal)
    (ht : isOpen.truthy = true) (hs : s.cacheCurrent ≠ .num 1) :
    (externalUpdateSwitch s isOpen).cacheCurrent ≠ .num 1 := by
  unfold externalUpdateSwitch
  split_ifs <;> simp_all [Device.logLine]

/-- The shape of `requestUpdate` once it is past the busy test and the request
has resolved. -/
theorem requestUpdate_some (s : Device) (res : Response) (hp : s.updateInProgress = false) :
    requestUpdate s (some res) =
      match res.data with
      | none => (polled s).logLine .failedToRefresh
      | some d =>
        match d.payload with
        | none => (polled s).logLine .failedToRefresh
        | some data =>
          match garageDoor0 data with
          | some e => requestUpdateSwitch (polled s) e.getOpen
          | none => polled s := by
  simp only [requestUpdate, hp, polled, Bool.false_eq_true, if_false]

/-- The shape of `externalUpdate`. -/
theorem externalUpdate_eq (s : Device) (ns : String) (params : Params) :
    externalUpdate s ns params =
      match params.payload with
      | none => (pushed s).logLine .failedToRefresh
      | some data =>
        if stateGuard data then
          match garageDoor0 data with
          | none => (pushed s).logLine .failedToRefresh
          | some e => externalUpdateSwitch (pushed s) e.getOpen
        else pushed s := by
  simp only [externalUpdate, pushed]

/-- The cache of `pushed s` is the cache of `s`. -/
theorem pushed_cache (s : Device) :
    (pushed s).cacheTarget = s.cacheTarget ∧ (pushed s).cacheCurrent = s.cacheCurrent := by
  unfold pushed
  split <;> simp [Device.logLine]

/-- A poll that does not report the sensor closed never produces closed. -/
theorem requestUpdate_ne_closed (s : Device) (res : Option Response)
    (hr : (Event.poll res).reportsClosed = false) (hs : s.cacheCurrent ≠ .num 1) :
    (requestUpdate s res).cacheCurrent ≠ .num 1 := by
  have hpol : (polled s).cacheCurrent ≠ .num 1 := by rw [(polled_cache s).2]; exact hs
  cases hp : s.updateInProgress with
  | true => simpa [requestUpdate, hp] using hs
  | false =>
    cases res with
    | none => simpa [requestUpdate, hp, Device.logLine] using hs
    | some res =>
      rw [requestUpdate_some s res hp]
      simp only [Event.reportsClosed] at hr
      cases hd : res.data with
      | none => exact hpol
      | some d =>
        rw [hd] at hr
        simp only at hr ⊢
        cases hq : d.payload with
        | none => exact hpol
        | some data =>
          rw [hq] at hr
          simp only [allFlagFalsy] at hr ⊢
          cases hg : garageDoor0 data with
          | none => exact hpol
          | some e =>
            rw [hg] at hr
            simp only [Bool.not_eq_false'] at hr ⊢
            exact requestUpdateSwitch_ne_closed _ _ hr hpol

/-- A pushed message that does not report the sensor closed never produces
closed. -/
theorem externalUpdate_ne_closed (s : Device) (ns : String) (params : Params)
    (hr : (Event.push ns params).reportsClosed = false) (hs : s.cacheCurrent ≠ .num 1) :
    (externalUpdate s ns params).cacheCurrent ≠ .num 1 := by
  have hpu : (pushed s).cacheCurrent ≠ .num 1 := by rw [(pushed_cache s).2]; exact hs
  rw [externalUpdate_eq]
  simp only [Event.reportsClosed] at hr
  cases hp : params.payload with
  | none => exact hpu
  | some data =>
    rw [hp] at hr
    simp only [Bool.or_eq_false_iff, allFlagFalsy] at hr
    simp only
    split
    · cases hg : garageDoor0 data with
      | none => exact hpu
      | some e =>
        have hr2 := hr.2
        rw [hg] at hr2
        simp only [Bool.not_eq_false'] at hr2 ⊢
        exact externalUpdateSwitch_ne_closed _ _ hr2 hpu
    · exact hpu

/-- One event that is not a report of the closed sensor never produces closed. -/
theorem step_ne_closed (s : Device) (ev : Event) (hr : ev.reportsClosed = false)
    (hs : s.cacheCurrent ≠ .num 1) : (step s ev).cacheCurrent ≠ .num 1 := by
  cases ev with
  | setTarget value w rnd => exact internalTargetUpdate_ne_closed s value w rnd hs
  | poll res => exact requestUpdate_ne_closed s res hr hs
  | push ns params => exact externalUpdate_ne_closed s ns params hr hs
  | fire i =>
    simp only [step]
    split
    · exact hs
    · exact callback_ne_closed _ _ hs
  | idle => simpa [step] using hs

/-- Sending never touches the completion timers. -/
theorem send_completionTimers (s : Device) (a : Action) (w : World) :
    (send s a w).1.completionTimers = s.completionTimers := by
  unfold send
  split
  · split
    · simp [Device.setTimeout, Device.completionTimers, List.filter_append,
        Callback.isComplete]
    · split <;> simp
    · simp
  · simp

/-- C7. From a device whose cached current is not closed, no sequence of events
that contains no report of the closed sensor (target requests that succeed or
fail, timer callbacks, the idle event, polls and pushes that report the sensor
open or are malformed) makes the cached current closed. Moreover a target
request whose action is close stores no new key and arms no completion timer,
whether it succeeds or fails. -/
theorem closed_only_by_sensor_report (s : Device) (es : List Event)
    (hs : s.cacheCurrent ≠ .num 1) (hes : ∀ ev ∈ es, ev.reportsClosed = false) :
    (run s es).cacheCurrent ≠ .num 1 ∧
    ∀ (t : Device) (value : JsVal) (w : World) (rnd : String),
      (internalTargetUpdate t value w rnd).action = .close →
        (internalTargetUpdate t value w rnd).device.updateKey = t.updateKey ∧
        (internalTargetUpdate t value w rnd).device.completionTimers
          = t.completionTimers := by
  constructor
  · induction es generalizing s with
    | nil => exact hs
    | cons ev es ih =>
      simp only [run, List.foldl_cons]
      exact ih (step s ev)
        (step_ne_closed s ev (hes ev (List.mem_cons_self _ _)) hs)
        (fun e he => hes e (List.mem_cons_of_mem _ he))
  · intro t value w rnd ha
    have hact : (transition t value).1.action = .close := by
      rw [← internalTargetUpdate_action t value w rnd]; exact ha
    have htt : (transition t value).2.completionTimers = t.completionTimers := by
      simp [Device.completionTimers, (transition_fields t value).2.2.2.1]
    simp only [internalTargetUpdate]
    split
    · simp only
      constructor
      · rw [(catchSendError_fields _).2.2.1, (send_fields _ _ _).2.2.1,
          (transition_fields _ _).2.2.1]
      · rw [← htt, ← send_completionTimers (transition t value).2
          (transition t value).1.action w]
        simp [Device.completionTimers, (catchSendError_fields _).2.2.2,
          List.filter_append, Callback.isComplete]
    · simp only [hact, armCompletion]
      have huc : ∀ (u : Device) (l : Locals),
          (updateCache u l).updateKey = u.updateKey ∧
          (updateCache u l).timers = u.timers := by
        intro u l
        unfold updateCache
        by_cases h1 : u.cacheTarget = l.newTarget <;>
          by_cases h2 : u.cacheCurrent = l.newCurrent <;>
          cases h3 : u.enableLogging <;> simp [h1, h2, h3, Device.logLine]
      constructor
      · simp only [reduceCtorEq, if_false]
        rw [(huc _ _).1, ← hact, (send_fields _ _ _).2.2.1, (transition_fields _ _).2.2.1]
      · simp only [reduceCtorEq, if_false]
        rw [← htt, ← send_completionTimers (transition t value).2
          (transition t value).1.action w]
        simp only [Device.completionTimers, (huc _ _).2, hact]

/-- Instance of C7: from an open door, a close command, the end of its ignore
window, a poll that reports the sensor open and a failed open command. -/
theorem closed_only_by_sensor_report_witness :
    (run openDoor
      [ .setTarget (.num 1) World.ok "k3x9", .fire 0,
        .poll (some (pollResponse (.num 1))), .idle,
        .setTarget (.num 0) World.down "q7z2" ]).cacheCurrent ≠ .num 1 :=
  (closed_only_by_sensor_report openDoor
    [ .setTarget (.num 1) World.ok "k3x9", .fire 0,
      .poll (some (pollResponse (.num 1))), .idle,
      .setTarget (.num 0) World.down "q7z2" ]
    (by decide) (by decide)).1

/-! ## The rest-state invariant -/

/-- C8, the code on two runs that start with target equal to current. From an
open door, an accepted close command followed by a poll that reports the sensor
closed ends with cached current open (0) and cached target closed (1): line 352
writes 0 where the door has just been reported closed. From a closed door, the
run `failedReopen` followed by the firing of the pending completion timer also
ends with cached current open and cached target closed. -/
theorem rest_state_invariant_broken :
    openDoor.cacheTarget = openDoor.cacheCurrent ∧
    (run openDoor [.setTarget (.num 1) World.ok "k3x9",
      .poll (some (pollResponse (.num 0)))]).cacheCurrent = .num 0 ∧
    (run openDoor [.setTarget (.num 1) World.ok "k3x9",
      .poll (some (pollResponse (.num 0)))]).cacheTarget = .num 1 ∧
    closedDoor.cacheTarget = closedDoor.cacheCurrent ∧
    (run closedDoor (failedReopen ++ [.fire 0])).cacheCurrent = .num 0 ∧
    (run closedDoor (failedReopen ++ [.fire 0])).cacheTarget = .num 1 := by
  refine ⟨?_, ?_, ?_, ?_, ?_, ?_⟩ <;> rfl

/-! ## A failed command -/

/-- The `catch` block runs exactly when the send block throws: an action was
chosen and, on the cloud connection, the publish rejected; on the local
connection, the request rejected or its response failed the test of line 198. -/
theorem internalTargetUpdate_threw (s : Device) (value : JsVal) (w : World) (rnd : String) :
    (internalTargetUpdate s value w rnd).threw = true ↔
      (transition s value).1.action ≠ .undefined ∧
      ((s.connection = .cloud ∧ w.controlGarageDoor = false) ∨
       (s.connection = .local_ ∧ w.sendLocalDeviceUpdate = none) ∨
       (s.connection = .local_ ∧
         ∃ res, w.sendLocalDeviceUpdate = some res ∧ localResponseRejected res = true)) := by
  have hconn : (transition s value).2.connection = s.connection := by
    unfold transition
    split_ifs <;> rfl
  have hthrew : (internalTargetUpdate s value w rnd).threw
      = (send (transition s value).2 (transition s value).1.action w).2 := by
    simp only [internalTargetUpdate]
    split <;> simp_all
  rw [hthrew]
  unfold send
  rw [hconn]
  by_cases ha : (transition s value).1.action = .undefined
  · simp [ha]
  · simp only [ne_eq, ha, not_false_eq_true, if_true, true_and]
    cases hc : s.connection with
    | cloud => simp
    | local_ =>
      cases hw : w.sendLocalDeviceUpdate with
      | none => simp
      | some res => simp
    | other => simp

/-- No callback touches the cached target. -/
theorem callback_cacheTarget (cb : Callback) (s : Device) :
    (cb.run s).cacheTarget = s.cacheTarget := by
  cases cb with
  | ignoreReset => rfl
  | revert => rfl
  | complete k =>
    simp only [Callback.run, completeCallback]
    split_ifs <;> simp [Device.logLine]

/-- Timer firings and idle events leave the cached target alone. -/
theorem run_quiet_cacheTarget (s : Device) (es : List Event)
    (hes : ∀ ev ∈ es, ev.quiet = true) : (run s es).cacheTarget = s.cacheTarget := by
  induction es generalizing s with
  | nil => rfl
  | cons ev es ih =>
    simp only [run, List.foldl_cons]
    have hstep : (step s ev).cacheTarget = s.cacheTarget := by
      have hq := hes ev (List.mem_cons_self _ _)
      cases ev with
      | setTarget value w rnd => simp [Event.quiet] at hq
      | poll res => simp [Event.quiet] at hq
      | push ns params => simp [Event.quiet] at hq
      | fire i =>
        simp only [step]
        split
        · rfl
        · exact callback_cacheTarget _ _
      | idle => rfl
    exact (ih (step s ev) (fun e he => hes e (List.mem_cons_of_mem _ he))).trans hstep

/-- C9. If the send inside `internalTargetUpdate` fails, the cached target, the
cached current and the key `updateKey` keep their values from before the
request, no completion timer is armed, the revert callback is the timer armed
last (2000 ms), and when that callback runs, right away or after any number of
timer firings and idle events, it sets the `TargetDoorState` characteristic to
the cached target from before the request. -/
theorem internalTargetUpdate_failure_atomic (s : Device) (value : JsVal) (w : World)
    (rnd : String) (hf : (internalTargetUpdate s value w rnd).threw = true) :
    (internalTargetUpdate s value w rnd).device.cacheTarget = s.cacheTarget ∧
    (internalTargetUpdate s value w rnd).device.cacheCurrent = s.cacheCurrent ∧
    (internalTargetUpdate s value w rnd).device.updateKey = s.updateKey ∧
    (internalTargetUpdate s value w rnd).device.completionTimers = s.completionTimers ∧
    (internalTargetUpdate s value w rnd).device.timers.getLast? = some ⟨2000, .revert⟩ ∧
    ∀ es : List Event, (∀ ev ∈ es, ev.quiet = true) →
      (revertCallback (run (internalTargetUpdate s value w rnd).device es)).targetDoorState
        = s.cacheTarget := by
  have htt : (transition s value).2.completionTimers = s.completionTimers := by
    simp [Device.completionTimers, (transition_fields s value).2.2.2.1]
  have hd : (internalTargetUpdate s value w rnd).device
      = catchSendError (send (transition s value).2 (transition s value).1.action w).1 := by
    simp only [internalTargetUpdate] at hf ⊢
    split at hf
    · rename_i h; simp only [h, if_true]
    · simp at hf
  rw [hd]
  have hT : (catchSendError
      (send (transition s value).2 (transition s value).1.action w).1).cacheTarget
      = s.cacheTarget := by
    rw [(catchSendError_fields _).1, (send_fields _ _ _).1, (transition_fields _ _).1]
  refine ⟨hT, ?_, ?_, ?_, ?_, ?_⟩
  · rw [(catchSendError_fields _).2.1, (send_fields _ _ _).2.1, (transition_fields _ _).2.1]
  · rw [(catchSendError_fields _).2.2.1, (send_fields _ _ _).2.2.1,
      (transition_fields _ _).2.2.1]
  · rw [← htt, ← send_completionTimers (transition s value).2
      (transition s value).1.action w]
    simp [Device.completionTimers, (catchSendError_fields _).2.2.2, List.filter_append,
      Callback.isComplete]
  · rw [(catchSendError_fields _).2.2.2]
    simp
  · intro es hes
    show (run _ es).cacheTarget = s.cacheTarget
    rw [run_quiet_cacheTarget _ es hes]
    exact hT

/-- Instance of C9: an open command for a closed door fails on the cloud
transport. -/
theorem internalTargetUpdate_failure_atomic_witness :
    (internalTargetUpdate closedDoor (.num 0) World.down "q7z2").threw = true ∧
    (internalTargetUpdate closedDoor (.num 0) World.down "q7z2").device.cacheTarget
      = .num 1 ∧
    (internalTargetUpdate closedDoor (.num 0) World.down "q7z2").device.cacheCurrent
      = .num 1 ∧
    (internalTargetUpdate closedDoor (.num 0) World.down "q7z2").device.updateKey = none ∧
    (revertCallback
      (internalTargetUpdate closedDoor (.num 0) World.down "q7z2").device).targetDoorState
      = .num 1 :=
  have h := internalTargetUpdate_failure_atomic closedDoor (.num 0) World.down "q7z2" rfl
  ⟨rfl, h.1, h.2.1, h.2.2.1, h.2.2.2.2.2 [] (by simp)⟩

/-! ## Idempotence of requests -/

/-- The new target chosen by `transition` is the requested value. -/
theorem transition_newTarget (s : Device) (value : JsVal) :
    (transition s value).1.newTarget = value := by
  unfold transition
  split_ifs <;> simp_all

/-- On a device whose cached current is the new current of a request, the same
request chooses no action and the same new current. -/
theorem transition_again (s t : Device) (value : JsVal)
    (ht : t.cacheCurrent = (transition s value).1.newCurrent) :
    (transition t value).1.action = .undefined ∧
    (transition t value).1.newCurrent = t.cacheCurrent := by
  unfold transition at ht ⊢
  split_ifs at ht ⊢ <;> simp_all

/-- C10. For every device and every requested value, in particular for a cached
current in 0..3 and a value in 0..1: once a request has been applied without
failure, applying the same request again chooses no action, cannot fail, and
leaves cached target and cached current unchanged; and when the cached current
is already the rest state equal to the requested value, the first application
chooses no action either. -/
theorem internalTargetUpdate_idempotent (s : Device) (value : JsVal) (w1 w2 : World)
    (r1 r2 : String) (h1 : (internalTargetUpdate s value w1 r1).threw = false) :
    (internalTargetUpdate (internalTargetUpdate s value w1 r1).device value w2 r2).action
      = .undefined ∧
    (internalTargetUpdate (internalTargetUpdate s value w1 r1).device value w2 r2).threw
      = false ∧
    (internalTargetUpdate (internalTargetUpdate s value w1 r1).device value w2
      r2).device.cacheTarget = (internalTargetUpdate s value w1 r1).device.cacheTarget ∧
    (internalTargetUpdate (internalTargetUpdate s value w1 r1).device value w2
      r2).device.cacheCurrent = (internalTargetUpdate s value w1 r1).device.cacheCurrent ∧
    ((value = .num 0 ∨ value = .num 1) → s.cacheCurrent = value →
      (internalTargetUpdate s value w1 r1).action = .undefined) := by
  have hcur : (internalTargetUpdate s value w1 r1).device.cacheCurrent
      = (transition s value).1.newCurrent := by
    rw [internalTargetUpdate_cacheCurrent, h1]; simp
  have htgt : (internalTargetUpdate s value w1 r1).device.cacheTarget = value := by
    rw [internalTargetUpdate_cacheTarget, h1, transition_newTarget]; simp
  have hagain := transition_again s (internalTargetUpdate s value w1 r1).device value hcur
  have hact : (internalTargetUpdate (internalTargetUpdate s value w1 r1).device value w2
      r2).action = .undefined := by
    rw [internalTargetUpdate_action]; exact hagain.1
  have hthrew2 : (internalTargetUpdate (internalTargetUpdate s value w1 r1).device value w2
      r2).threw = false := by
    cases h : (internalTargetUpdate (internalTargetUpdate s value w1 r1).device value w2
      r2).threw with
    | false => rfl
    | true => exact absurd hagain.1 ((internalTargetUpdate_threw _ _ _ _).1 h).1
  refine ⟨hact, hthrew2, ?_, ?_, ?_⟩
  · rw [internalTargetUpdate_cacheTarget, hthrew2, transition_newTarget, htgt]; simp
  · rw [internalTargetUpdate_cacheCurrent, hthrew2]
    simpa using hagain.2
  · intro hv hc
    rw [internalTargetUpdate_action]
    unfold transition
    rcases hv with rfl | rfl <;> simp [hc]

/-- Instance of C10: a close request for an open door, accepted, then
repeated. -/
theorem internalTargetUpdate_idempotent_witness :
    (internalTargetUpdate openDoor (.num 1) World.ok "k3x9").threw = false ∧
    (internalTargetUpdate (internalTargetUpdate openDoor (.num 1) World.ok "k3x9").device
      (.num 1) World.down "q7z2").action = .undefined ∧
    (internalTargetUpdate (internalTargetUpdate openDoor (.num 1) World.ok "k3x9").device
      (.num 1) World.down "q7z2").device.cacheCurrent = .num 3 :=
  have h := internalTargetUpdate_idempotent openDoor (.num 1) World.ok World.down
    "k3x9" "q7z2" rfl
  ⟨rfl, h.1, h.2.2.2.1.trans rfl⟩

/-! ## Timer races -/

/-- Copying the locals into the cache leaves the key, the timers and the
characteristics alone. -/
theorem updateCache_fields (u : Device) (l : Locals) :
    (updateCache u l).updateKey = u.updateKey ∧
    (updateCache u l).timers = u.timers ∧
    (updateCache u l).currentDoorState = u.currentDoorState ∧
    (updateCache u l).targetDoorState = u.targetDoorState ∧
    (updateCache u l).operationTime = u.operationTime ∧
    (updateCache u l).updateInProgress = u.updateInProgress := by
  unfold updateCache
  by_cases h1 : u.cacheTarget = l.newTarget <;>
    by_cases h2 : u.cacheCurrent = l.newCurrent <;>
    cases h3 : u.enableLogging <;> simp [h1, h2, h3, Device.logLine]

/-- The device after a call that did not fail. -/
theorem internalTargetUpdate_success (s : Device) (value : JsVal) (w : World) (rnd : String)
    (h : (internalTargetUpdate s value w rnd).threw = false) :
    (internalTargetUpdate s value w rnd).device =
      armCompletion
        (updateCache (send (transition s value).2 (transition s value).1.action w).1
          (transition s value).1)
        (transition s value).1.action rnd := by
  simp only [internalTargetUpdate] at h ⊢
  split at h
  · simp at h
  · rename_i hthrew
    simp only [hthrew, Bool.false_eq_true, if_false]

/-- After an accepted open command the key is the fresh key, the completion
timer for it is pending and the characteristic shows what `transition` wrote. -/
theorem internalTargetUpdate_open_success (s : Device) (value : JsVal) (w : World)
    (rnd : String) (h : (internalTargetUpdate s value w rnd).threw = false)
    (ha : (transition s value).1.action = .open_) :
    (internalTargetUpdate s value w rnd).device.updateKey = some rnd ∧
    ⟨s.operationTime * 1000, .complete rnd⟩ ∈ (internalTargetUpdate s value w rnd).device.timers ∧
    (internalTargetUpdate s value w rnd).device.currentDoorState
      = (transition s value).2.currentDoorState := by
  have hop : (transition s value).2.operationTime = s.operationTime := by
    unfold transition
    split_ifs <;> rfl
  rw [internalTargetUpdate_success s value w rnd h, ha]
  simp only [armCompletion, if_true, Device.setTimeout]
  refine ⟨trivial, ?_, ?_⟩
  · rw [(updateCache_fields _ _).2.2.2.2.1, (send_fields _ _ _).2.2.2.2.2.2, hop]
    simp
  · rw [(updateCache_fields _ _).2.2.1, (send_fields _ _ _).2.2.2.2.1]

/-- After an accepted command that is not an open command the key is the old
key and the characteristic shows what `transition` wrote. -/
theorem internalTargetUpdate_other_success (s : Device) (value : JsVal) (w : World)
    (rnd : String) (h : (internalTargetUpdate s value w rnd).threw = false)
    (ha : (transition s value).1.action ≠ .open_) :
    (internalTargetUpdate s value w rnd).device.updateKey = s.updateKey ∧
    (internalTargetUpdate s value w rnd).device.currentDoorState
      = (transition s value).2.currentDoorState := by
  rw [internalTargetUpdate_success s value w rnd h]
  simp only [armCompletion, ha, if_false]
  constructor
  · rw [(updateCache_fields _ _).1, (send_fields _ _ _).2.2.1, (transition_fields _ _).2.2.1]
  · rw [(updateCache_fields _ _).2.2.1, (send_fields _ _ _).2.2.2.2.1]

/-- C11. From a closed door, an accepted open command arms a completion timer
with key `a`; after an accepted close command and a second accepted open
command with a key `b` different from `a`, the cached current is opening, the
callback of the first timer leaves the device unchanged, as does every callback
whose key is not `b`, and the callback with key `b` sets the cached current to
open and leaves the cached target alone. -/
theorem completeCallback_superseded (s : Device) (w1 w2 w3 : World) (a r b : String)
    (hs : s.cacheCurrent = .num 1) (hab : a ≠ b)
    (h1 : (internalTargetUpdate s (.num 0) w1 a).threw = false)
    (h2 : (internalTargetUpdate (internalTargetUpdate s (.num 0) w1 a).device (.num 1)
      w2 r).threw = false)
    (h3 : (internalTargetUpdate (internalTargetUpdate (internalTargetUpdate s (.num 0) w1
      a).device (.num 1) w2 r).device (.num 0) w3 b).threw = false) :
    ⟨s.operationTime * 1000, .complete a⟩
      ∈ (internalTargetUpdate s (.num 0) w1 a).device.timers ∧
    (internalTargetUpdate (internalTargetUpdate (internalTargetUpdate s (.num 0) w1
      a).device (.num 1) w2 r).device (.num 0) w3 b).device.cacheCurrent = .num 2 ∧
    (internalTargetUpdate (internalTargetUpdate (internalTargetUpdate s (.num 0) w1
      a).device (.num 1) w2 r).device (.num 0) w3 b).device.cacheTarget = .num 0 ∧
    completeCallback a (internalTargetUpdate (internalTargetUpdate (internalTargetUpdate s
      (.num 0) w1 a).device (.num 1) w2 r).device (.num 0) w3 b).device
      = (internalTargetUpdate (internalTargetUpdate (internalTargetUpdate s (.num 0) w1
        a).device (.num 1) w2 r).device (.num 0) w3 b).device ∧
    (∀ k : String, k ≠ b →
      completeCallback k (internalTargetUpdate (internalTargetUpdate (internalTargetUpdate s
        (.num 0) w1 a).device (.num 1) w2 r).device (.num 0) w3 b).device
        = (internalTargetUpdate (internalTargetUpdate (internalTargetUpdate s (.num 0) w1
          a).device (.num 1) w2 r).device (.num 0) w3 b).device) ∧
    (completeCallback b (internalTargetUpdate (internalTargetUpdate (internalTargetUpdate s
      (.num 0) w1 a).device (.num 1) w2 r).device (.num 0) w3 b).device).cacheCurrent
      = .num 0 ∧
    (completeCallback b (internalTargetUpdate (internalTargetUpdate (internalTargetUpdate s
      (.num 0) w1 a).device (.num 1) w2 r).device (.num 0) w3 b).device).cacheTarget
      = .num 0 := by
  -- first command: closed, open requested
  have ha1 : (transition s (.num 0)).1.action = .open_ := by simp [transition, hs]
  have hc1 : (internalTargetUpdate s (.num 0) w1 a).device.cacheCurrent = .num 2 := by
    rw [internalTargetUpdate_cacheCurrent, h1]; simp [transition, hs]
  have ht1 := (internalTargetUpdate_open_success s (.num 0) w1 a h1 ha1).2.1
  -- second command: opening, close requested
  generalize (internalTargetUpdate s (.num 0) w1 a).device = s1 at *
  have hc2 : (internalTargetUpdate s1 (.num 1) w2 r).device.cacheCurrent = .num 3 := by
    rw [internalTargetUpdate_cacheCurrent, h2]; simp [transition, hc1]
  -- third command: closing, open requested
  generalize (internalTargetUpdate s1 (.num 1) w2 r).device = s2 at *
  have ha3 : (transition s2 (.num 0)).1.action = .open_ := by simp [transition, hc2]
  have hc3 : (internalTargetUpdate s2 (.num 0) w3 b).device.cacheCurrent = .num 2 := by
    rw [internalTargetUpdate_cacheCurrent, h3]; simp [transition, hc2]
  have hT3 : (internalTargetUpdate s2 (.num 0) w3 b).device.cacheTarget = .num 0 := by
    rw [internalTargetUpdate_cacheTarget, h3, transition_newTarget]; simp
  have hk3 := (internalTargetUpdate_open_success s2 (.num 0) w3 b h3 ha3).1
  have hd3 : (internalTargetUpdate s2 (.num 0) w3 b).device.currentDoorState = .num 2 := by
    rw [(internalTargetUpdate_open_success s2 (.num 0) w3 b h3 ha3).2.2]
    simp [transition, hc2]
  generalize (internalTargetUpdate s2 (.num 0) w3 b).device = s3 at *
  have hstale : ∀ k : String, k ≠ b → completeCallback k s3 = s3 := by
    intro k hk
    simp [completeCallback, hk3, hk]
  refine ⟨ht1, hc3, hT3, hstale a hab, hstale, ?_, ?_⟩
  · simp only [completeCallback, hk3, hd3, ne_eq, not_true_eq_false, if_false]
    split <;> simp [Device.logLine]
  · simp only [completeCallback, hk3, hd3, ne_eq, not_true_eq_false, if_false]
    split <;> simp [Device.logLine, hT3]

/-- Instance of C11 on the cloud transport with keys `k3x9` and `q7z2`. -/
theorem completeCallback_superseded_witness :
    completeCallback "k3x9" (run closedDoor
      [.setTarget (.num 0) World.ok "k3x9", .setTarget (.num 1) World.ok "m1n8",
       .setTarget (.num 0) World.ok "q7z2"])
      = run closedDoor
      [.setTarget (.num 0) World.ok "k3x9", .setTarget (.num 1) World.ok "m1n8",
       .setTarget (.num 0) World.ok "q7z2"] :=
  (completeCallback_superseded closedDoor World.ok World.ok World.ok "k3x9" "m1n8" "q7z2"
    rfl (by decide) rfl rfl rfl).2.2.2.1

/-- C12. From a device whose cached current is opening, an accepted close
request has action close and leaves the cached target closed and the cached
current closing; the completion callback of the earlier open command, with
whatever key, then leaves the device unchanged, so the current stays closing. -/
theorem close_while_opening (s : Device) (w : World) (r : String)
    (hs : s.cacheCurrent = .num 2)
    (h : (internalTargetUpdate s (.num 1) w r).threw = false) :
    (internalTargetUpdate s (.num 1) w r).action = .close ∧
    (internalTargetUpdate s (.num 1) w r).device.cacheTarget = .num 1 ∧
    (internalTargetUpdate s (.num 1) w r).device.cacheCurrent = .num 3 ∧
    ∀ k : String, completeCallback k (internalTargetUpdate s (.num 1) w r).device
      = (internalTargetUpdate s (.num 1) w r).device := by
  have ha : (transition s (.num 1)).1.action = .close := by simp [transition, hs]
  have hd : (internalTargetUpdate s (.num 1) w r).device.currentDoorState = .num 3 := by
    rw [(internalTargetUpdate_other_success s (.num 1) w r h (by rw [ha]; decide)).2]
    simp [transition, hs]
  refine ⟨?_, ?_, ?_, ?_⟩
  · rw [internalTargetUpdate_action]; exact ha
  · rw [internalTargetUpdate_cacheTarget, h, transition_newTarget]; simp
  · rw [internalTargetUpdate_cacheCurrent, h]; simp [transition, hs]
  · intro k
    simp [completeCallback, hd]

/-- Instance of C12: a closed door is opened with key `k3x9`, then closed while
opening; the pending completion callback changes nothing. -/
theorem close_while_opening_witness :
    (internalTargetUpdate (run closedDoor [.setTarget (.num 0) World.ok "k3x9"]) (.num 1)
      World.ok "q7z2").action = .close ∧
    completeCallback "k3x9" (internalTargetUpdate
      (run closedDoor [.setTarget (.num 0) World.ok "k3x9"]) (.num 1) World.ok "q7z2").device
      = (internalTargetUpdate
      (run closedDoor [.setTarget (.num 0) World.ok "k3x9"]) (.num 1) World.ok "q7z2").device :=
  have h := close_while_opening (run closedDoor [.setTarget (.num 0) World.ok "k3x9"])
    World.ok "q7z2" rfl rfl
  ⟨h.1, h.2.2.2 "k3x9"⟩

/-! ## Reconciliation lands on rest states -/

/-- The `switch` of `requestUpdate` keeps the cached current or sets it to open
or to closed. -/
theorem requestUpdateSwitch_current (s : Device) (isOpen : JsVal) :
    (requestUpdateSwitch s isOpen).cacheCurrent = s.cacheCurrent ∨
    (requestUpdateSwitch s isOpen).cacheCurrent = .num 0 ∨
    (requestUpdateSwitch s isOpen).cacheCurrent = .num 1 := by
  unfold requestUpdateSwitch
  split_ifs <;> simp [Device.logLine]

/-- A poll keeps the cached current or sets it to open or to closed. -/
theorem requestUpdate_current (s : Device) (res : Option Response) :
    (requestUpdate s res).cacheCurrent = s.cacheCurrent ∨
    (requestUpdate s res).cacheCurrent = .num 0 ∨
    (requestUpdate s res).cacheCurrent = .num 1 := by
  have hpol := (polled_cache s).2
  cases hp : s.updateInProgress with
  | true => left; simp [requestUpdate, hp]
  | false =>
    cases res with
    | none => left; simp [requestUpdate, hp, Device.logLine]
    | some res =>
      rw [requestUpdate_some s res hp]
      cases hd : res.data with
      | none => left; exact hpol
      | some d =>
        simp only
        cases hq : d.payload with
        | none => left; exact hpol
        | some data =>
          simp only
          cases hg : garageDoor0 data with
          | none => left; exact hpol
          | some e =>
            simp only
            have h := requestUpdateSwitch_current (polled s) e.getOpen
            rw [hpol] at h
            exact h

/-- C13. For every device and every poll, if the poll changes the cached current
then the new cached current is open (0) or closed (1); and a poll met with the
cached current open never leaves it opening (2) or closing (3). -/
theorem requestUpdate_lands_on_rest (s : Device) (res : Option Response) :
    ((requestUpdate s res).cacheCurrent ≠ s.cacheCurrent →
      (requestUpdate s res).cacheCurrent = .num 0 ∨
      (requestUpdate s res).cacheCurrent = .num 1) ∧
    (s.cacheCurrent = .num 0 →
      (requestUpdate s res).cacheCurrent ≠ .num 2 ∧
      (requestUpdate s res).cacheCurrent ≠ .num 3) := by
  have h := requestUpdate_current s res
  constructor
  · intro hne
    rcases h with h | h
    · exact absurd h hne
    · exact h
  · intro h0
    rcases h with h | h | h <;> rw [h] <;> simp [h0]

/-- Instance of C13: a door cached as open meets a poll that reports the sensor
closed. -/
theorem requestUpdate_lands_on_rest_witness :
    (requestUpdate openDoor (some (pollResponse (.num 0)))).cacheCurrent = .num 0 ∨
    (requestUpdate openDoor (some (pollResponse (.num 0)))).cacheCurrent = .num 1 :=
  (requestUpdate_lands_on_rest openDoor (some (pollResponse (.num 0)))).1 (by decide)

/-! ## The ignore window -/

/-- C17, the code at the failing input. An accepted open command on the cloud
connection sets `ignoreIncoming`; a pushed message that reports the sensor
closed, delivered to `externalUpdate` while the flag is still set, forces the
cached target and current from open and opening to closed and closed:
`externalUpdate` never reads the flag. (A message that carries the flag only at
`payload.state[0].open` changes nothing, with or without the window, because
of the read of line 381.) -/
theorem externalUpdate_ignores_window :
    (run closedDoor [.setTarget (.num 0) World.ok "k3x9"]).ignoreIncoming = true ∧
    (run closedDoor [.setTarget (.num 0) World.ok "k3x9"]).cacheTarget = .num 0 ∧
    (run closedDoor [.setTarget (.num 0) World.ok "k3x9"]).cacheCurrent = .num 2 ∧
    (externalUpdate (run closedDoor [.setTarget (.num 0) World.ok "k3x9"])
      "Appliance.GarageDoor.State" (pushParamsBoth (.num 0))).ignoreIncoming = true ∧
    (externalUpdate (run closedDoor [.setTarget (.num 0) World.ok "k3x9"])
      "Appliance.GarageDoor.State" (pushParamsBoth (.num 0))).cacheTarget = .num 1 ∧
    (externalUpdate (run closedDoor [.setTarget (.num 0) World.ok "k3x9"])
      "Appliance.GarageDoor.State" (pushParamsBoth (.num 0))).cacheCurrent = .num 1 ∧
    (externalUpdate (run closedDoor [.setTarget (.num 0) World.ok "k3x9"])
      "Appliance.GarageDoor.State" (pushParams (.num 0))).cacheCurrent = .num 2 := by
  refine ⟨?_, ?_, ?_, ?_, ?_, ?_, ?_⟩ <;> rfl

/-! ## The characteristics after a failed command -/

/-- C18, the code at the failing input. A close command for an open door fails
on the transport and its revert runs. The `TargetDoorState` characteristic
equals the cached target again, but the `CurrentDoorState` characteristic
still shows closing (3), written on line 104 before the send, while the cached
current is open (0). -/
theorem failed_command_leaves_current_characteristic :
    openDoor.targetDoorState = openDoor.cacheTarget ∧
    openDoor.currentDoorState = openDoor.cacheCurrent ∧
    (internalTargetUpdate openDoor (.num 1) World.down "q7z2").threw = true ∧
    (run openDoor [.setTarget (.num 1) World.down "q7z2"]).timers
      = [⟨3000, .ignoreReset⟩, ⟨2000, .revert⟩] ∧
    (run openDoor [.setTarget (.num 1) World.down "q7z2", .fire 1]).targetDoorState
      = (run openDoor [.setTarget (.num 1) World.down "q7z2", .fire 1]).cacheTarget ∧
    (run openDoor [.setTarget (.num 1) World.down "q7z2", .fire 1]).cacheCurrent = .num 0 ∧
    (run openDoor [.setTarget (.num 1) World.down "q7z2", .fire 1]).currentDoorState
      = .num 3 := by
  refine ⟨?_, ?_, ?_, ?_, ?_, ?_, ?_⟩ <;> rfl

/-! ## The busy flag -/

/-- C19, the code at the failing input. On a fresh device the flag
`updateInProgress` is false before a command unit and still false after it:
`internalTargetUpdate` never assigns the flag. A poll unit sets it, and the
`idle` event of the queue clears it. -/
theorem command_unit_not_busy :
    closedDoor.updateInProgress = false ∧
    (internalTargetUpdate closedDoor (.num 0) World.ok "k3x9").action = .open_ ∧
    (internalTargetUpdate closedDoor (.num 0) World.ok "k3x9").device.updateInProgress
      = false ∧
    (requestUpdate closedDoor (some (pollResponse (.num 0)))).updateInProgress = true ∧
    (run closedDoor [.poll (some (pollResponse (.num 0))), .idle]).updateInProgress
      = false := by
  refine ⟨?_, ?_, ?_, ?_, ?_⟩ <;> rfl

/-! ## The response of the local transport -/

/-- C20, as stated, fails. A local response whose payload carries an `error`
under the method `SETACK` passes the test of line 198: the close command of an
open door is treated as accepted and the cache moves to closed and closing. -/
theorem local_error_field_not_checked :
    ackWithError.data.bind (fun d => d.payload.bind (fun p => p.error))
      = some "device busy" ∧
    (internalTargetUpdate localOpenDoor (.num 1) ⟨true, some ackWithError⟩ "q7z2").action
      = .close ∧
    (internalTargetUpdate localOpenDoor (.num 1) ⟨true, some ackWithError⟩ "q7z2").threw
      = false ∧
    (internalTargetUpdate localOpenDoor (.num 1)
      ⟨true, some ackWithError⟩ "q7z2").device.cacheTarget = .num 1 ∧
    (internalTargetUpdate localOpenDoor (.num 1)
      ⟨true, some ackWithError⟩ "q7z2").device.cacheCurrent = .num 3 := by
  refine ⟨?_, ?_, ?_, ?_, ?_⟩ <;> rfl

/-- C20, amended. On the local transport, every response to a command that has
no `data`, no `data.header`, or the method `ERROR` in its header is treated as a
failure: the `catch` block of `internalTargetUpdate` runs and the cached target
and current are not updated. -/
theorem local_error_method_rejected (s : Device) (value : JsVal) (w : World) (rnd : String)
    (res : Response) (hc : s.connection = .local_)
    (ha : (transition s value).1.action ≠ .undefined)
    (hw : w.sendLocalDeviceUpdate = some res)
    (hr : res.data = none ∨ (∃ d, res.data = some d ∧ d.header = none) ∨
      (∃ d h, res.data = some d ∧ d.header = some h ∧ h.method = "ERROR")) :
    (internalTargetUpdate s value w rnd).threw = true ∧
    (internalTargetUpdate s value w rnd).device.cacheTarget = s.cacheTarget ∧
    (internalTargetUpdate s value w rnd).device.cacheCurrent = s.cacheCurrent := by
  have hrej : localResponseRejected res = true := by
    unfold localResponseRejected
    rcases hr with h | ⟨d, h1, h2⟩ | ⟨d, h, h1, h2, h3⟩
    · simp [h]
    · simp [h1, h2]
    · simp [h1, h2, h3]
  have ht : (internalTargetUpdate s value w rnd).threw = true :=
    (internalTargetUpdate_threw s value w rnd).2
      ⟨ha, Or.inr (Or.inr ⟨hc, res, hw, hrej⟩)⟩
  refine ⟨ht, ?_, ?_⟩
  · rw [internalTargetUpdate_cacheTarget, ht]; simp
  · rw [internalTargetUpdate_cacheCurrent, ht]; simp

/-- Instance of C20 amended: the device answers a close command with the
method `ERROR` and an `error` in the payload. -/
theorem local_error_method_rejected_witness :
    (internalTargetUpdate localOpenDoor (.num 1)
      ⟨true, some ⟨some ⟨some ⟨"ERROR"⟩, some ⟨none, none, some "device busy"⟩⟩⟩⟩
      "q7z2").threw = true ∧
    (internalTargetUpdate localOpenDoor (.num 1)
      ⟨true, some ⟨some ⟨some ⟨"ERROR"⟩, some ⟨none, none, some "device busy"⟩⟩⟩⟩
      "q7z2").device.cacheTarget = .num 0 ∧
    (internalTargetUpdate localOpenDoor (.num 1)
      ⟨true, some ⟨some ⟨some ⟨"ERROR"⟩, some ⟨none, none, some "device busy"⟩⟩⟩⟩
      "q7z2").device.cacheCurrent = .num 0 :=
  local_error_method_rejected localOpenDoor (.num 1)
    ⟨true, some ⟨some ⟨some ⟨"ERROR"⟩, some ⟨none, none, some "device busy"⟩⟩⟩⟩ "q7z2"
    ⟨some ⟨some ⟨"ERROR"⟩, some ⟨none, none, some "device busy"⟩⟩⟩
    rfl (by decide) rfl (Or.inr (Or.inr ⟨_, _, rfl, rfl, rfl⟩))

/-! ## The cloud client -/

/-- When the `try` block of a listing method returns, it returns the array
`res.data.data` of the response it has just received, whose `info` is
`Success`. -/
theorem listTry_ok (req : Request) (invalid : String) (outs : List AxiosOutcome) (h : Http)
    (v : Returned) (h1 : Http) (rest : List AxiosOutcome)
    (hr : listTry req invalid outs h = some (.ok v, h1, rest)) :
    ∃ records, v = .records records ∧
      outs = .resolves (some ⟨some "Success", some (.array records)⟩) :: rest := by
  unfold listTry at hr
  split at hr
  · simp at hr
  · cases outs with
    | nil => simp at hr
    | cons o rest0 =>
      cases o with
      | rejects code => simp at hr
      | resolves data =>
        cases data with
        | none => simp at hr
        | some d =>
          obtain ⟨info, data⟩ := d
          simp only at hr
          split at hr
          · simp only [Option.some.injEq, Prod.mk.injEq, Except.ok.injEq] at hr
            obtain ⟨hv, -, hrest⟩ := hr
            exact ⟨_, hv.symm, by rw [hrest]⟩
          · simp at hr

/-- On a client whose `lang` is undefined, as the constructor leaves it,
`getDevices` returns only through its `try` block: whatever it returns is the
array of a `Success` response. -/
theorem getDevices_ok_without_lang (fromBase64 : String → String) (fuel : Nat)
    (outs : List AxiosOutcome) (h : Http) (v : Returned) (h1 : Http)
    (rest : List AxiosOutcome) (hl : h.lang = none)
    (hr : getDevices fromBase64 fuel outs h = some (.ok v, h1, rest)) :
    ∃ records, v = .records records ∧
      outs = .resolves (some ⟨some "Success", some (.array records)⟩) :: rest := by
  have hlang : ∀ (r : Except HttpError Returned) (h2 : Http) (rest2 : List AxiosOutcome),
      listTry (.devList h.token) "invalid device list received - " outs h
        = some (r, h2, rest2) → h2.lang = none := by
    intro r h2 rest2 ht
    unfold listTry at ht
    split at ht
    · simp only [Option.some.injEq, Prod.mk.injEq] at ht
      rw [← ht.2.1]; exact hl
    · cases outs with
      | nil => simp at ht
      | cons o rest0 =>
        cases o with
        | rejects code =>
          simp only [Option.some.injEq, Prod.mk.injEq] at ht
          rw [← ht.2.1]; exact hl
        | resolves data =>
          cases data with
          | none =>
            simp only [Option.some.injEq, Prod.mk.injEq] at ht
            rw [← ht.2.1]; exact hl
          | some d =>
            simp only at ht
            split at ht <;>
              (simp only [Option.some.injEq, Prod.mk.injEq] at ht
               rw [← ht.2.1]; exact hl)
  unfold getDevices at hr
  cases ht : listTry (.devList h.token) "invalid device list received - " outs h with
  | none => rw [ht] at hr; simp [listCatch] at hr
  | some res =>
    obtain ⟨r, h2, rest2⟩ := res
    rw [ht] at hr
    cases r with
    | ok v2 =>
      simp only [listCatch, Option.some.injEq, Prod.mk.injEq, Except.ok.injEq] at hr
      obtain ⟨hv, hh, hrest⟩ := hr
      subst hv hh hrest
      exact listTry_ok _ _ outs h _ _ _ ht
    | error err =>
      have hl2 := hlang _ _ _ ht
      simp only [listCatch] at hr
      split at hr
      · simp at hr
      · rw [hl2] at hr
        simp at hr

/-- The retry branch of the `catch` blocks, on a client on which `lang` has been
assigned from outside the class. The request of `getDevices` fails with the
code `ETIMEDOUT`, which is in `httpRetryCodes`; the `catch` block logs, sleeps
and returns `await this.login()`: the value returned is the object
`{ key, token, userid }` of the login, and `getSubDevices` does the same. On
the client the constructor builds, whose `lang` is undefined, the same branch
throws a `TypeError` before it sleeps, so that this value is never returned. -/
theorem getDevices_returns_login_result :
    (getDevices (fun p => p) 2 timeoutThenLogin loggedIn).map (fun r => r.1)
      = some (.ok (.credentials ⟨some "key1", some "token1", some "42"⟩)) ∧
    (getDevices (fun p => p) 2 timeoutThenLogin loggedIn).map (fun r => r.2.1.requests)
      = some [.devList (some "token0"), .login "user@example.com" "secret"] ∧
    (getSubDevices (fun p => p) 2 "hub-uuid" timeoutThenLogin loggedIn).map (fun r => r.1)
      = some (.ok (.credentials ⟨some "key1", some "token1", some "42"⟩)) ∧
    (getDevices (fun p => p) 2 timeoutThenLogin loggedInNoLang).map (fun r => r.1)
      = some (.error .typeError) := by
  refine ⟨?_, ?_, ?_, ?_⟩ <;> rfl

/-- Once the fallback has been tried, the `try` block of `login` settles without
a nested call, with the password and the flag as they were. -/
theorem loginTry_tried (f : String → String)
    (retry : List AxiosOutcome → Http → Option (Settled Credentials))
    (outs : List AxiosOutcome) (h : Http) (t : Settled Credentials)
    (hb : h.base64Tried = true) (ht : loginTry f retry outs h = some t) :
    t.2.1.password = h.password ∧ t.2.1.base64Tried = true := by
  unfold loginTry at ht
  cases outs with
  | nil => simp at ht
  | cons o rest =>
    cases o with
    | rejects code =>
      simp only [Option.some.injEq] at ht
      subst ht; exact ⟨rfl, hb⟩
    | resolves data =>
      cases data with
      | none =>
        simp only [Option.some.injEq] at ht
        subst ht; exact ⟨rfl, hb⟩
      | some d =>
        simp only [hb, if_true] at ht
        split_ifs at ht <;>
          (simp only [Option.some.injEq] at ht
           subst ht
           exact ⟨rfl, rfl⟩)

/-- The `catch` block of `login` keeps a property of the object that its log
and its count of sleeps do not affect, when the nested call keeps it. -/
theorem loginCatch_keeps (P : Http → Prop)
    (retry : List AxiosOutcome → Http → Option (Settled Credentials))
    (hlog : ∀ (h : Http) (l : List HttpLog) (n : Nat),
      P h → ∀ outs r, retry outs { h with log := l, sleeps := n } = some r → P r.2.1)
    (t r : Settled Credentials) (ht : P t.2.1) (hr : loginCatch retry (some t) = some r) :
    P r.2.1 := by
  obtain ⟨res, h1, rest⟩ := t
  cases res with
  | ok c =>
    simp only [loginCatch, Option.some.injEq] at hr
    subst hr; exact ht
  | error err =>
    simp only [loginCatch] at hr
    split at hr
    · simp only [Option.some.injEq] at hr
      subst hr; exact ht
    · split at hr
      · simp only [Option.some.injEq] at hr
        subst hr; exact ht
      · exact hlog h1 _ _ ht _ _ hr

/-- Once the fallback has been tried, no run of `login` changes the password. -/
theorem login_tried_keeps_password (f : String → String) :
    ∀ (fuel : Nat) (outs : List AxiosOutcome) (h : Http) (r : Settled Credentials),
      h.base64Tried = true → login f fuel outs h = some r →
      r.2.1.password = h.password ∧ r.2.1.base64Tried = true := by
  intro fuel
  induction fuel with
  | zero => intro outs h r _ hr; simp [login] at hr
  | succ n ih =>
    intro outs h r hb hr
    simp only [login] at hr
    cases ht : loginTry f (login f n) outs h with
    | none => rw [ht] at hr; simp [loginCatch] at hr
    | some t =>
      rw [ht] at hr
      have h1 := loginTry_tried f _ outs h t hb ht
      exact loginCatch_keeps
        (fun x => x.password = h.password ∧ x.base64Tried = true) (login f n)
        (fun x l k hx outs2 r2 hr2 => by
          have := ih outs2 { x with log := l, sleeps := k } r2 hx.2 hr2
          exact ⟨this.1.trans hx.1, this.2⟩)
        t r h1 hr

/-- In every run of `login` that settles, the password has been decoded at most
once: it is the password the run started with, or, when the fallback had not
been tried, its decoding, and then the fallback is marked as tried. -/
theorem login_decodes_at_most_once (f : String → String) :
    ∀ (fuel : Nat) (outs : List AxiosOutcome) (h : Http) (r : Settled Credentials),
      login f fuel outs h = some r →
      (r.2.1.password = h.password ∧ r.2.1.base64Tried = h.base64Tried) ∨
      (h.base64Tried = false ∧ r.2.1.password = decodePassword f h.password ∧
        r.2.1.base64Tried = true) := by
  intro fuel
  induction fuel with
  | zero => intro outs h r hr; simp [login] at hr
  | succ n ih =>
    intro outs h r hr
    simp only [login] at hr
    cases ht : loginTry f (login f n) outs h with
    | none => rw [ht] at hr; simp [loginCatch] at hr
    | some t =>
      rw [ht] at hr
      have hkeep := loginCatch_keeps
        (fun x => (x.password = h.password ∧ x.base64Tried = h.base64Tried) ∨
          (h.base64Tried = false ∧ x.password = decodePassword f h.password ∧
            x.base64Tried = true)) (login f n)
        (fun x l k hx outs2 r2 hr2 => by
          have := ih outs2 { x with log := l, sleeps := k } r2 hr2
          simp only at this
          rcases hx with ⟨hx1, hx2⟩ | ⟨hx0, hx1, hx2⟩
          · rcases this with ⟨t1, t2⟩ | ⟨t0, t1, t2⟩
            · exact Or.inl ⟨t1.trans hx1, t2.trans hx2⟩
            · exact Or.inr ⟨hx2 ▸ t0, by rw [t1, hx1], t2⟩
          · rcases this with ⟨t1, t2⟩ | ⟨t0, t1, t2⟩
            · exact Or.inr ⟨hx0, t1.trans hx1, t2.trans hx2⟩
            · rw [hx2] at t0; cases t0)
        t r ?_ hr
      · exact hkeep
      · -- the `try` block
        cases hb : h.base64Tried with
        | true =>
          have := loginTry_tried f _ outs h t hb ht
          exact Or.inl ⟨this.1, this.2⟩
        | false =>
          unfold loginTry at ht
          cases outs with
          | nil => simp at ht
          | cons o rest =>
            cases o with
            | rejects code =>
              simp only [Option.some.injEq] at ht
              subst ht; exact Or.inl ⟨rfl, hb⟩
            | resolves data =>
              cases data with
              | none =>
                simp only [Option.some.injEq] at ht
                subst ht; exact Or.inl ⟨rfl, hb⟩
              | some d =>
                simp only [hb, Bool.false_eq_true, if_false] at ht
                split_ifs at ht
                · have := login_tried_keeps_password f n _ _ t rfl ht
                  exact Or.inr ⟨rfl, this.1, this.2⟩
                all_goals
                  (simp only [Option.some.injEq] at ht
                   subst ht
                   exact Or.inl ⟨rfl, rfl⟩)

/-- On a client whose `lang` is undefined, a listing method returns only through
its `try` block: whatever it returns is the array of a `Success` response. -/
theorem listing_ok_without_lang (fromBase64 : String → String) (fuel : Nat)
    (req : Request) (invalid : String) (outs : List AxiosOutcome) (h : Http)
    (v : Returned) (h1 : Http) (rest : List AxiosOutcome) (hl : h.lang = none)
    (hr : listCatch fromBase64 fuel (listTry req invalid outs h) = some (.ok v, h1, rest)) :
    ∃ records, v = .records records ∧
      outs = .resolves (some ⟨some "Success", some (.array records)⟩) :: rest := by
  have hlang : ∀ (r : Except HttpError Returned) (h2 : Http) (rest2 : List AxiosOutcome),
      listTry req invalid outs h = some (r, h2, rest2) → h2.lang = none := by
    intro r h2 rest2 ht
    unfold listTry at ht
    split at ht
    · simp only [Option.some.injEq, Prod.mk.injEq] at ht
      rw [← ht.2.1]; exact hl
    · cases outs with
      | nil => simp at ht
      | cons o rest0 =>
        cases o with
        | rejects code =>
          simp only [Option.some.injEq, Prod.mk.injEq] at ht
          rw [← ht.2.1]; exact hl
        | resolves data =>
          cases data with
          | none =>
            simp only [Option.some.injEq, Prod.mk.injEq] at ht
            rw [← ht.2.1]; exact hl
          | some d =>
            simp only at ht
            split at ht <;>
              (simp only [Option.some.injEq, Prod.mk.injEq] at ht
               rw [← ht.2.1]; exact hl)
  cases ht : listTry req invalid outs h with
  | none => rw [ht] at hr; simp [listCatch] at hr
  | some res =>
    obtain ⟨r, h2, rest2⟩ := res
    rw [ht] at hr
    cases r with
    | ok v2 =>
      simp only [listCatch, Option.some.injEq, Prod.mk.injEq, Except.ok.injEq] at hr
      obtain ⟨hv, hh, hrest⟩ := hr
      subst hv hh hrest
      exact listTry_ok _ _ outs h _ _ _ ht
    | error err =>
      have hl2 := hlang _ _ _ ht
      simp only [listCatch] at hr
      split at hr
      · simp at hr
      · rw [hl2] at hr
        simp at hr

/-- On a logged-in client whose `lang` is undefined, a listing request that is
rejected with a code of `httpRetryCodes` makes the method throw the
`TypeError` of line 149 (line 213): nothing is logged and no retry is made. -/
theorem listing_retry_throws_without_lang (fromBase64 : String → String) (fuel : Nat)
    (req : Request) (invalid : String) (code : String) (rest : List AxiosOutcome)
    (h : Http) (hl : h.lang = none) (hk : truthyString h.key = true)
    (ht : truthyString h.token = true) (hu : truthyString h.userid = true)
    (hc : code ≠ "") (hm : code ∈ h.httpRetryCodes) :
    listCatch fromBase64 fuel (listTry req invalid (.rejects (some code) :: rest) h)
      = some (.error .typeError, { h with requests := h.requests ++ [req] }, rest) := by
  simp [listTry, listCatch, retryable, hl, hk, ht, hu, hc, hm]

/-- No statement of the `try` block of `login` assigns `lang`. -/
theorem loginTry_keeps_lang (f : String → String)
    (retry : List AxiosOutcome → Http → Option (Settled Credentials))
    (hretry : ∀ outs x r, retry outs x = some r → r.2.1.lang = x.lang)
    (outs : List AxiosOutcome) (h : Http) (t : Settled Credentials)
    (ht : loginTry f retry outs h = some t) : t.2.1.lang = h.lang := by
  unfold loginTry at ht
  cases outs with
  | nil => simp at ht
  | cons o rest =>
    cases o with
    | rejects code =>
      simp only [Option.some.injEq] at ht
      subst ht; rfl
    | resolves data =>
      cases data with
      | none =>
        simp only [Option.some.injEq] at ht
        subst ht; rfl
      | some d =>
        simp only at ht
        split_ifs at ht
        all_goals
          first
          | (simp only [Option.some.injEq] at ht
             subst ht
             rfl)
          | (have hx := hretry _ _ _ ht
             exact hx)

/-- No run of `login` assigns `lang`. -/
theorem login_keeps_lang (f : String → String) :
    ∀ (fuel : Nat) (outs : List AxiosOutcome) (h : Http) (r : Settled Credentials),
      login f fuel outs h = some r → r.2.1.lang = h.lang := by
  intro fuel
  induction fuel with
  | zero => intro outs h r hr; simp [login] at hr
  | succ n ih =>
    intro outs h r hr
    simp only [login] at hr
    cases ht : loginTry f (login f n) outs h with
    | none => rw [ht] at hr; simp [loginCatch] at hr
    | some t =>
      rw [ht] at hr
      have h1 := loginTry_keeps_lang f (login f n) (fun o x r2 hr2 => ih o x r2 hr2) outs h t ht
      exact loginCatch_keeps (fun x => x.lang = h.lang) (login f n)
        (fun x l k hx outs2 r2 hr2 => (ih outs2 { x with log := l, sleeps := k } r2 hr2).trans hx)
        t r h1 hr

/-- No run of a listing method assigns `lang`. -/
theorem listing_keeps_lang (fromBase64 : String → String) (fuel : Nat)
    (req : Request) (invalid : String) (outs : List AxiosOutcome) (h : Http)
    (r : Settled Returned)
    (hr : listCatch fromBase64 fuel (listTry req invalid outs h) = some r) :
    r.2.1.lang = h.lang := by
  have htry : ∀ (t : Settled Returned), listTry req invalid outs h = some t →
      t.2.1.lang = h.lang := by
    intro t ht
    unfold listTry at ht
    split at ht
    · simp only [Option.some.injEq] at ht
      subst ht; rfl
    · cases outs with
      | nil => simp at ht
      | cons o rest0 =>
        cases o with
        | rejects code =>
          simp only [Option.some.injEq] at ht
          subst ht; rfl
        | resolves data =>
          cases data with
          | none =>
            simp only [Option.some.injEq] at ht
            subst ht; rfl
          | some d =>
            simp only at ht
            split at ht <;>
              (simp only [Option.some.injEq] at ht
               subst ht
               rfl)
  cases ht : listTry req invalid outs h with
  | none => rw [ht] at hr; simp [listCatch] at hr
  | some t =>
    have hlt := htry t ht
    obtain ⟨res, h2, rest2⟩ := t
    rw [ht] at hr
    cases res with
    | ok v =>
      simp only [listCatch, Option.some.injEq] at hr
      subst hr; exact hlt
    | error err =>
      cases hret : retryable h2 err with
      | none =>
        simp only [listCatch, hret, Option.some.injEq] at hr
        subst hr; exact hlt
      | some code =>
        simp only [listCatch, hret] at hr
        split at hr
        · simp only [Option.some.injEq] at hr
          subst hr; exact hlt
        · cases hlog : login fromBase64 fuel rest2
              { h2 with log := h2.log ++ [.httpRetry "getDevices()" code],
                        sleeps := h2.sleeps + 1 } with
          | none => rw [hlog] at hr; simp at hr
          | some lr =>
            have hkeep := login_keeps_lang fromBase64 fuel _ _ lr hlog
            obtain ⟨lres, h3, rest3⟩ := lr
            rw [hlog] at hr
            cases lres with
            | ok c =>
              simp only [Option.some.injEq] at hr
              subst hr; exact hkeep.trans hlt
            | error e =>
              simp only [Option.some.injEq] at hr
              subst hr; exact hkeep.trans hlt

/-- C14. On a client whose `lang` is undefined, which is how the constructor
leaves it and how `login`, `getDevices` and `getSubDevices` keep it, whenever
`getDevices` (likewise `getSubDevices`) completes without throwing, for any
outcomes of the `axios` calls, the value it returns is the array `res.data.data`
of the response it received, whose `info` is `Success`. A run in which the
request is rejected with a code of `httpRetryCodes` does not complete: the
`catch` block throws a `TypeError`. -/
theorem listing_returns_device_records (fromBase64 : String → String) (fuel : Nat)
    (uuid : String) (outs : List AxiosOutcome) (h : Http) (hl : h.lang = none) :
    (∀ (v : Returned) (h1 : Http) (rest : List AxiosOutcome),
      getDevices fromBase64 fuel outs h = some (.ok v, h1, rest) →
        h1.lang = none ∧
        ∃ records, v = .records records ∧
          outs = .resolves (some ⟨some "Success", some (.array records)⟩) :: rest) ∧
    (∀ (v : Returned) (h1 : Http) (rest : List AxiosOutcome),
      getSubDevices fromBase64 fuel uuid outs h = some (.ok v, h1, rest) →
        h1.lang = none ∧
        ∃ records, v = .records records ∧
          outs = .resolves (some ⟨some "Success", some (.array records)⟩) :: rest) ∧
    (∀ (code : String) (rest : List AxiosOutcome),
      truthyString h.key = true → truthyString h.token = true →
      truthyString h.userid = true → code ≠ "" → code ∈ h.httpRetryCodes →
        (getDevices fromBase64 fuel (.rejects (some code) :: rest) h).map (fun r => r.1)
          = some (.error .typeError) ∧
        (getSubDevices fromBase64 fuel uuid (.rejects (some code) :: rest) h).map
          (fun r => r.1) = some (.error .typeError)) ∧
    (Http.init h.debug h.username h.password h.userkey h.httpRetryCodes).lang = none ∧
    (∀ (n : Nat) (o : List AxiosOutcome) (r : Settled Credentials),
      login fromBase64 n o h = some r → r.2.1.lang = none) := by
  refine ⟨?_, ?_, ?_, rfl, ?_⟩
  · intro v h1 rest hr
    exact ⟨(listing_keeps_lang fromBase64 fuel _ _ outs h _ hr).trans hl,
      listing_ok_without_lang fromBase64 fuel _ _ outs h v h1 rest hl hr⟩
  · intro v h1 rest hr
    exact ⟨(listing_keeps_lang fromBase64 fuel _ _ outs h _ hr).trans hl,
      listing_ok_without_lang fromBase64 fuel _ _ outs h v h1 rest hl hr⟩
  · intro code rest hk ht hu hc hm
    constructor
    · unfold getDevices
      rw [listing_retry_throws_without_lang fromBase64 fuel _ _ code rest h hl hk ht hu hc hm]
      rfl
    · unfold getSubDevices
      rw [listing_retry_throws_without_lang fromBase64 fuel _ _ code rest h hl hk ht hu hc hm]
      rfl
  · intro n o r hr
    exact (login_keeps_lang fromBase64 n o h r hr).trans hl

/-- Instance of C14: a logged-in client with `lang` undefined asks for the device
list and the server answers it. -/
theorem listing_returns_device_records_witness :
    loggedInNoLang.lang = none ∧
    (getDevices asciiFromBase64 1 deviceListAnswer loggedInNoLang).map (fun r => r.1)
      = some (.ok (.records ["uuid-1", "uuid-2"])) ∧
    ∃ records, Returned.records ["uuid-1", "uuid-2"] = .records records ∧
      deviceListAnswer
        = .resolves (some ⟨some "Success", some (.array records)⟩) :: [] :=
  ⟨rfl, rfl,
    ((listing_returns_device_records asciiFromBase64 1 "hub-uuid" deviceListAnswer
      loggedInNoLang rfl).1 (.records ["uuid-1", "uuid-2"])
      { loggedInNoLang with requests := [.devList (some "token0")] } [] rfl).2⟩

/-- C15. With no fallback tried yet, a credential-mismatch answer makes `login`
set `base64Tried`, replace the password by `fromBase64` of it with every
carriage return and line feed removed and the surrounding white space
trimmed, and send one more login request with that password. If the server
answers credential mismatch again, `login` throws that message: it has sent
exactly the two requests, decoded once and consumed no further answer. If the
server accepts the decoded password, `login` returns the credentials. In every
run of `login` that settles, whatever the answers and the transport errors,
the password ends as the original one or as its one decoding. The last three
parts fix what removing the line breaks and trimming do on given texts. -/
theorem login_one_fallback (fromBase64 : String → String) (fuel : Nat) (h : Http)
    (d1 d2 : ServerData) (rest : List AxiosOutcome) (hb : h.base64Tried = false)
    (h1 : d1.info = some credentialMismatch) :
    (d2.info = some credentialMismatch →
      login fromBase64 (fuel + 2) (.resolves (some d1) :: .resolves (some d2) :: rest) h =
        some (.error (.error credentialMismatch),
          { h with base64Tried := true,
                   password := jsTrim (stripLineBreaks (fromBase64 h.password)),
                   requests := h.requests ++
                     [.login h.username h.password,
                      .login h.username
                        (jsTrim (stripLineBreaks (fromBase64 h.password)))] },
          rest)) ∧
    (d2.info = some "Success" → truthyValue d2.data = true →
      (login fromBase64 (fuel + 2) (.resolves (some d1) :: .resolves (some d2) :: rest)
        h).map (fun r => (r.1, r.2.1.requests, r.2.1.password, r.2.2)) =
        some (.ok (d2.data.getD .falsy).credentials,
          h.requests ++
            [.login h.username h.password,
             .login h.username (jsTrim (stripLineBreaks (fromBase64 h.password)))],
          jsTrim (stripLineBreaks (fromBase64 h.password)), rest)) ∧
    (∀ (n : Nat) (outs : List AxiosOutcome) (r : Settled Credentials),
      login fromBase64 n outs h = some r →
        r.2.1.password = h.password ∨
        r.2.1.password = jsTrim (stripLineBreaks (fromBase64 h.password))) ∧
    stripLineBreaks "  hun\r\nter2 \n" = "  hunter2 " ∧
    jsTrim "  hunter2 " = "hunter2" ∧
    jsTrim (stripLineBreaks "\n pass\rword\t\r\n") = "password" := by
  have hne : credentialMismatch ≠ "Success" := by decide
  have hne2 : credentialMismatch ≠ "" := by decide
  refine ⟨?_, ?_, ?_, by decide, by decide, by decide⟩
  · intro h2
    simp [login, loginTry, loginCatch, decodePassword, h1, h2, hb, hne, hne2, truthyString,
      retryable]
  · intro h2 hv
    simp only [login, loginTry, loginCatch, decodePassword, h1, h2, hb, hv, hne, hne2,
      truthyString, retryable]
    cases hd : h.debug <;> cases hu : h.userkey <;> simp [hne, hne2, truthyString]
    split <;> simp
  · intro n outs r hr
    rcases login_decodes_at_most_once fromBase64 n outs h r hr with h3 | h3
    · exact Or.inl h3.1
    · exact Or.inr h3.2.1

/-- Instance of C15: the configured password is the base64 text
`ICBodW4NCnRlcjIgCg==`; the server rejects it, `login` retries with `hunter2`,
the decoded text without its line breaks and outer blanks, and the server
rejects that too. -/
theorem login_one_fallback_witness :
    asciiFromBase64 "ICBodW4NCnRlcjIgCg==" = "  hun\r\nter2 \n" ∧
    login asciiFromBase64 2
      [.resolves (some ⟨some credentialMismatch, none⟩),
       .resolves (some ⟨some credentialMismatch, none⟩)]
      encodedPasswordClient =
      some (.error (.error credentialMismatch),
        { encodedPasswordClient with
          base64Tried := true,
          password := "hunter2",
          requests := [.login "user@example.com" "ICBodW4NCnRlcjIgCg==",
                       .login "user@example.com" "hunter2"] },
        []) :=
  ⟨by decide,
    (login_one_fallback asciiFromBase64 0 encodedPasswordClient
      ⟨some credentialMismatch, none⟩ ⟨some credentialMismatch, none⟩ [] rfl rfl).1 rfl⟩

/-! ## The stopped state -/

/-- From a cached current of stopped, `transition` chooses no action and leaves
`newCurrent` undefined. -/
theorem transition_stopped (s : Device) (value : JsVal) :
    (transition { s with cacheCurrent := .num 4 } value).1 = ⟨.undefined, value, .undefined⟩ := by
  unfold transition
  split_ifs <;> simp_all

/-- C21, the code at the failing input. With the cached current stopped (4), a
target request of any value chooses no action and sends nothing, as the claim
says, but lines 215-216 then copy the undefined `newCurrent` into the cache:
the cached current ends undefined, not stopped. No request computes stopped as
the new current. -/
theorem stopped_becomes_undefined (s : Device) (value : JsVal) (w : World) (rnd : String) :
    (internalTargetUpdate { s with cacheCurrent := .num 4 } value w rnd).action
      = .undefined ∧
    (internalTargetUpdate { s with cacheCurrent := .num 4 } value w rnd).threw = false ∧
    (internalTargetUpdate { s with cacheCurrent := .num 4 } value w rnd).device.cacheCurrent
      = .undefined ∧
    (internalTargetUpdate stoppedDoor (.num 1) World.ok "k3x9").device.cacheCurrent
      = .undefined ∧
    (internalTargetUpdate stoppedDoor (.num 0) World.ok "k3x9").device.cacheCurrent
      = .undefined ∧
    (internalTargetUpdate stoppedDoor (.num 1) World.ok "k3x9").device.log
      = [.currentTarget (some "closed"), .currentState none] ∧
    (∀ (t : Device) (v : JsVal), (transition t v).1.newCurrent ≠ .num 4) := by
  have hact : (internalTargetUpdate { s with cacheCurrent := .num 4 } value w rnd).action
      = .undefined := by
    rw [internalTargetUpdate_action, transition_stopped]
  have hthrew : (internalTargetUpdate { s with cacheCurrent := .num 4 } value w rnd).threw
      = false := by
    cases h : (internalTargetUpdate { s with cacheCurrent := .num 4 } value w rnd).threw with
    | false => rfl
    | true =>
      have h2 := ((internalTargetUpdate_threw _ _ _ _).1 h).1
      rw [transition_stopped] at h2
      exact absurd rfl h2
  refine ⟨hact, hthrew, ?_, rfl, rfl, rfl, ?_⟩
  · rw [internalTargetUpdate_cacheCurrent, hthrew, transition_stopped]
    simp
  · intro t v
    unfold transition
    split_ifs <;> simp

/-! ## Poll responses of unexpected shape -/

/-- C22, as stated, fails. A poll response that has `data` and `payload` but no
`payload.all` leaves the cache unchanged and writes nothing to the log: the
guard of lines 296-301 skips it without a warning. -/
theorem requestUpdate_silent_on_missing_digest :
    garageDoor0 ⟨none, none, none⟩ = none ∧
    (requestUpdate closedDoor (some pollWithoutAll)).cacheTarget = closedDoor.cacheTarget ∧
    (requestUpdate closedDoor (some pollWithoutAll)).cacheCurrent
      = closedDoor.cacheCurrent ∧
    (requestUpdate closedDoor (some pollWithoutAll)).log = [] := by
  refine ⟨?_, ?_, ?_, ?_⟩ <;> rfl

/-- C22, amended. On a device that is not busy, a poll response without `data`
or without `payload` is a failed poll: cached target and current are unchanged
and the warning `failed to refresh status` is logged. A response with a payload
that lacks `all.digest.garageDoor[0]` also leaves cached target and current
unchanged, but logs no warning: the log gains only the debug line of the
poll, when debug logging is enabled. -/
theorem requestUpdate_unexpected_shape (s : Device) (res : Response)
    (hp : s.updateInProgress = false) :
    ((res.data = none ∨ ∃ d, res.data = some d ∧ d.payload = none) →
      (requestUpdate s (some res)).cacheTarget = s.cacheTarget ∧
      (requestUpdate s (some res)).cacheCurrent = s.cacheCurrent ∧
      (requestUpdate s (some res)).log
        = (if s.enableDebugLogging then s.log ++ [.incomingPoll] else s.log)
          ++ [.failedToRefresh]) ∧
    (∀ (d : ResData) (data : Payload), res.data = some d → d.payload = some data →
      garageDoor0 data = none →
      (requestUpdate s (some res)).cacheTarget = s.cacheTarget ∧
      (requestUpdate s (some res)).cacheCurrent = s.cacheCurrent ∧
      (requestUpdate s (some res)).log
        = if s.enableDebugLogging then s.log ++ [.incomingPoll] else s.log) := by
  have hlog : (polled s).log
      = if s.enableDebugLogging then s.log ++ [.incomingPoll] else s.log := by
    unfold polled
    split <;> simp [Device.logLine]
  have hwarn : ((polled s).logLine .failedToRefresh).cacheTarget = s.cacheTarget ∧
      ((polled s).logLine .failedToRefresh).cacheCurrent = s.cacheCurrent ∧
      ((polled s).logLine .failedToRefresh).log
        = (if s.enableDebugLogging then s.log ++ [.incomingPoll] else s.log)
          ++ [.failedToRefresh] := by
    refine ⟨(polled_cache s).1, (polled_cache s).2, ?_⟩
    rw [← hlog]
    rfl
  rw [requestUpdate_some s res hp]
  constructor
  · rintro (h | ⟨d, h1, h2⟩)
    · rw [h]; exact hwarn
    · rw [h1]; simp only [h2]; exact hwarn
  · intro d data h1 h2 h3
    rw [h1]; simp only [h2, h3]
    exact ⟨(polled_cache s).1, (polled_cache s).2, hlog⟩

/-- Instance of C22 amended: a poll response without `data`. -/
theorem requestUpdate_unexpected_shape_witness :
    (requestUpdate closedDoor (some ⟨none⟩)).cacheTarget = .num 1 ∧
    (requestUpdate closedDoor (some ⟨none⟩)).cacheCurrent = .num 1 ∧
    (requestUpdate closedDoor (some ⟨none⟩)).log = [.failedToRefresh] :=
  (requestUpdate_unexpected_shape closedDoor ⟨none⟩ rfl).1 (Or.inl rfl)

/-! ## Idempotence of the poll reconciliation -/

/-- The `switch` of `requestUpdate`, run twice with the same flag, leaves the
cache as one run does, except from closing with a falsy flag. -/
theorem requestUpdateSwitch_twice (s : Device) (isOpen : JsVal)
    (h : ¬ (s.cacheCurrent = .num 3 ∧ isOpen.truthy = false)) :
    (requestUpdateSwitch (requestUpdateSwitch s isOpen) isOpen).cacheTarget
      = (requestUpdateSwitch s isOpen).cacheTarget ∧
    (requestUpdateSwitch (requestUpdateSwitch s isOpen) isOpen).cacheCurrent
      = (requestUpdateSwitch s isOpen).cacheCurrent := by
  cases ht : isOpen.truthy <;>
    by_cases h0 : s.cacheCurrent = .num 0 <;>
    by_cases h1 : s.cacheCurrent = .num 1 <;>
    by_cases h2 : s.cacheCurrent = .num 2 <;>
    by_cases h3 : s.cacheCurrent = .num 3 <;>
    simp_all [requestUpdateSwitch, Device.logLine]

/-- C23, the code at the failing input. A device that is closing (target closed)
meets a poll that reports the sensor closed: one reconciliation leaves the
cache at target closed, current open (line 352); a second one with the same
flag, after the queue has gone idle, moves it to target closed, current
closed. One and two applications differ, on the `switch` alone as well. -/
theorem requestUpdate_not_idempotent_from_closing :
    (run closingDoor [.poll (some (pollResponse (.num 0)))]).cacheTarget = .num 1 ∧
    (run closingDoor [.poll (some (pollResponse (.num 0)))]).cacheCurrent = .num 0 ∧
    (run closingDoor [.poll (some (pollResponse (.num 0))), .idle,
      .poll (some (pollResponse (.num 0)))]).cacheTarget = .num 1 ∧
    (run closingDoor [.poll (some (pollResponse (.num 0))), .idle,
      .poll (some (pollResponse (.num 0)))]).cacheCurrent = .num 1 ∧
    (requestUpdateSwitch closingDoor (.num 0)).cacheCurrent = .num 0 ∧
    (requestUpdateSwitch (requestUpdateSwitch closingDoor (.num 0)) (.num 0)).cacheCurrent
      = .num 1 := by
  refine ⟨?_, ?_, ?_, ?_, ?_, ?_⟩ <;> rfl

end Meross
